import Mathlib

/-!
Shallow embedding of the Shopify serverless upload/removal functions
(`api/upload.js`, `api/remove.js`) and of the rate limiter documented for
the upload endpoint.  Outbound HTTP traffic is modelled by oracles: each
handler takes the upstream responses it would receive as explicit inputs
and returns the JSON response it would serialize together with the list
of outbound calls it issued, in order.
-/

/-- Truthiness of a possibly-absent JS string: `undefined`/`null` and the
empty string are falsy, every other string is truthy. -/
def jsTruthy (s : Option String) : Bool :=
  match s with
  | none => false
  | some v => v ≠ ""

/-- JS `String.prototype.includes`: `pat` occurs as a contiguous substring
of `s` (also true when `pat` is empty). -/
def jsIncludes (s pat : String) : Bool :=
  s.toList.tails.any (fun t => pat.toList.isPrefixOf t)

/-- JS `String.prototype.toLowerCase`, restricted to the ASCII range that
the repository's filenames use. -/
def jsToLower (s : String) : String :=
  ⟨s.toList.map Char.toLower⟩

/-- Characters of the standard base64 alphabet (padding `=` excluded). -/
def isBase64AlphaChar (c : Char) : Bool :=
  c.isAlpha || c.isDigit || c = '+' || c = '/'

/-- Byte length of `Buffer.from(payload, 'base64')` in Node for payloads
drawn from the base64 alphabet plus `=` padding: every group of 4 alphabet
characters yields 3 bytes, a trailing group of 2 or 3 yields 1 or 2 bytes,
and padding contributes nothing. -/
def jsBase64DecodedLen (s : String) : Nat :=
  (s.toList.filter isBase64AlphaChar).length * 3 / 4

/-- Character class `[A-Za-z-+/]` of the data-URI regex in `api/upload.js`:
ASCII letters, `-`, `+` and `/` (note: no digits). -/
def mimeChar (c : Char) : Bool :=
  (c ≥ 'A' && c ≤ 'Z') || (c ≥ 'a' && c ≤ 'z') || c = '-' || c = '+' || c = '/'

/-- Line terminators that `.` does not match in a JS regex without the `s`
flag. -/
def jsLineTerminator (c : Char) : Bool :=
  c = '\n' || c = '\r' || c = Char.ofNat 0x2028 || c = Char.ofNat 0x2029

/-- Result of `image.match(/^data:([A-Za-z-+\/]+);base64,(.+)$/)`: the
captured mime type and base64 payload when the regex matches, `none`
otherwise.  Since `;` is not in the mime character class, the greedy match
of group 1 is the unique candidate, and `(.+)$` succeeds exactly when the
remainder after `;base64,` is non-empty and free of line terminators. -/
def dataUriMatch (s : String) : Option (String × String) :=
  let cs := s.toList
  if "data:".toList.isPrefixOf cs then
    let rest := cs.drop 5
    let mime := rest.takeWhile mimeChar
    let after := rest.drop mime.length
    if 0 < mime.length ∧ ";base64,".toList.isPrefixOf after then
      let payload := after.drop 8
      if 0 < payload.length ∧ payload.all (fun c => !jsLineTerminator c) then
        some (⟨mime⟩, ⟨payload⟩)
      else none
    else none
  else none

/-- Outcome of the request-validation phase of the upload handler
(`api/upload.js`, first handler): an early 400 response carrying the given
`error` string, or acceptance with the extracted content type and base64
payload. -/
inductive UploadValidation where
  | reject (error : String)
  | accept (contentType base64Data : String)
deriving Repr, DecidableEq

/-- Validation phase of the upload handler, exactly in source order:
missing `filename`/`image`, then the `data:image/` start check, then the
data-URI regex.  No property of the decoded bytes is inspected. -/
def validateUpload (filename image : Option String) : UploadValidation :=
  if !(jsTruthy filename && jsTruthy image) then
    .reject "Missing filename or image data"
  else
    let img := image.getD ""
    if !("data:image/".toList.isPrefixOf img.toList) then
      .reject "Invalid image format"
    else
      match dataUriMatch img with
      | none => .reject "Invalid base64 format"
      | some (ct, b64) => .accept ct b64

/-! ### Bulk remover (`api/remove.js`) -/

/-- One `files` edge as the remove handler uses it: the node's global id
and its `alt` label (which Shopify may omit, hence `Option`). -/
structure FileEdge where
  id : String
  alt : Option String
deriving Repr, DecidableEq

/-- Upstream response to one page of the `getFiles` query: either
top-level GraphQL errors (strings of the error list) or a page of edges
plus the `hasNextPage` flag. -/
inductive PageRes where
  | gqlErrors (errs : List String)
  | page (edges : List FileEdge) (hasNextPage : Bool)
deriving Repr, DecidableEq

/-- Pagination loop of the remove handler.  `pages` lists the upstream
responses in the order the loop receives them; the loop stops on the first
page whose `hasNextPage` is false (exhausting the oracle is read as the
platform reporting no further page).  Returns the accumulated edges or the
first error, together with the number of `getFiles` calls issued. -/
def fetchAllFiles (pages : List PageRes) : Except (List String) (List FileEdge) × Nat :=
  match pages with
  | [] => (.ok [], 0)
  | .gqlErrors errs :: _ => (.error errs, 1)
  | .page edges true :: rest =>
      let (r, n) := fetchAllFiles rest
      (r.map (edges ++ ·), n + 1)
  | .page edges false :: _ => (.ok edges, 1)

/-- Upstream response to one `fileDelete` mutation: top-level GraphQL
errors, a parsed payload with its `userErrors` and `deletedFileIds`
lists, or a thrown (network-level) error whose message is recorded. -/
inductive DelRes where
  | gqlErrors (errs : List String)
  | parsed (userErrors deletedFileIds : List String)
  | thrown (msg : String)
deriving Repr, DecidableEq

/-- Shopify's batch limit used by the deletion loop (`const batchSize = 10`). -/
def batchSize : Nat := 10

/-- Safety ceiling on deletions per request (`const MAX_DELETE_PER_REQUEST = 1000`). -/
def MAX_DELETE_PER_REQUEST : Nat := 1000

/-- Chunking recursion behind `toBatches`, made structural on a fuel
argument so that it evaluates by kernel reduction; `fuel` bounds the
number of chunks taken and any `fuel ≥ l.length` is exact, since every
step consumes a non-empty prefix. -/
def toBatchesAux (fuel : Nat) (l : List α) : List (List α) :=
  match fuel with
  | 0 => []
  | Nat.succ f =>
      if l.isEmpty then []
      else l.take batchSize :: toBatchesAux f (l.drop batchSize)

/-- Consecutive batches of at most `batchSize` elements, mirroring
`matchingFiles.slice(i, i + batchSize)` for `i = 0, 10, 20, ...`. -/
def toBatches (l : List α) : List (List α) :=
  toBatchesAux l.length l

/-- One entry of the `errors` array of the remove response: the 1-based
batch number and the strings of the reported error. -/
structure ErrEntry where
  batch : Nat
  errs : List String
deriving Repr, DecidableEq

/-- Deletion loop body over precomputed batches, starting at 0-based batch
index `i`.  Per-batch failures are recorded in the error list and never
stop the recursion; successful batches contribute their returned
`deletedFileIds` to the first component. -/
def runDeleteBatches (batches : List (List String)) (resp : Nat → DelRes) (i : Nat) :
    List String × List ErrEntry :=
  match batches with
  | [] => ([], [])
  | _ :: rest =>
    let (ds, es) := runDeleteBatches rest resp (i + 1)
    match resp i with
    | .gqlErrors errs => (ds, ⟨i + 1, errs⟩ :: es)
    | .thrown msg => (ds, ⟨i + 1, [msg]⟩ :: es)
    | .parsed userErrors deletedFileIds =>
        if userErrors.length > 0 then (ds, ⟨i + 1, userErrors⟩ :: es)
        else (deletedFileIds ++ ds, es)

/-- One entry of the `details` array: id, raw `alt`, and whether the id
was found in the accumulated `deletedFiles` list. -/
structure DetailEntry where
  id : String
  alt : Option String
  deleted : Bool
deriving Repr, DecidableEq

/-- JSON response of the remove handler.  String-valued fields are kept as
the pieces the code interpolates (template-literal chunks stay separate
strings; numbers interpolated into messages are rendered with `Nat.repr`). -/
structure RemoveResponse where
  status : Nat
  success : Bool
  error : Option String := none
  message : List String := []
  detailsMsg : List String := []
  filesRemoved : Option Nat := none
  totalMatched : Option Nat := none
  details : Option (List DetailEntry) := none
  errors : Option (List ErrEntry) := none
deriving Repr, DecidableEq

/-- Outbound calls the remove handler can issue. -/
inductive RCall where
  | filesQuery
  | fileDelete (fileIds : List String)
deriving Repr, DecidableEq

/-- Environment configuration read by the remove handler. -/
structure RemoveEnv where
  shop : Option String
  token : Option String
  adminPassword : Option String
deriving Repr, DecidableEq

/-- Request body of the remove handler. -/
structure RemoveBody where
  searchPattern : Option String
  adminPassword : Option String
deriving Repr, DecidableEq

/-- Case-insensitive substring filter of the remove handler:
`allFiles.filter(edge => (edge.node?.alt || '').toLowerCase().includes(searchPattern.toLowerCase()))`. -/
def matchingFiles (searchPattern : String) (allFiles : List FileEdge) : List FileEdge :=
  allFiles.filter (fun e => jsIncludes (jsToLower (e.alt.getD "")) (jsToLower searchPattern))

/-- Enumeration, filtering, ceiling check and deletion loop of the remove
handler (`api/remove.js` from the pattern-length check on), reached once
configuration and authorization checks have passed. -/
def removeCore (searchPattern : String) (pages : List PageRes)
    (delResp : Nat → DelRes) : RemoveResponse × List RCall :=
    if searchPattern.length < 2 then
      ({ status := 400, success := false, error := some "Search pattern too short",
         message := ["Search pattern must be at least 2 characters to prevent accidental mass deletion"] }, [])
    else
      let (fetched, nq) := fetchAllFiles pages
      let qCalls := List.replicate nq RCall.filesQuery
      match fetched with
      | .error errs =>
          ({ status := 500, success := false, error := some "Failed to fetch files",
             detailsMsg := errs }, qCalls)
      | .ok allFiles =>
          let matching := matchingFiles searchPattern allFiles
          if matching.length = 0 then
            ({ status := 200, success := true,
               message := ["No files found matching pattern: ", searchPattern],
               filesRemoved := some 0, details := some [] }, qCalls)
          else if matching.length > MAX_DELETE_PER_REQUEST then
            ({ status := 400, success := false, error := some "Too many files",
               message := ["Found ", Nat.repr matching.length,
                 " files, but maximum ", Nat.repr MAX_DELETE_PER_REQUEST,
                 " files can be deleted per request. Please use a more specific search pattern."],
               totalMatched := some matching.length }, qCalls)
          else
            let batches := toBatches (matching.map (·.id))
            let (deletedFiles, errs) := runDeleteBatches batches delResp 0
            ({ status := 200, success := true,
               message := ["Successfully removed ", Nat.repr deletedFiles.length,
                 " files matching pattern: ", searchPattern],
               filesRemoved := some deletedFiles.length,
               totalMatched := some matching.length,
               details := some (matching.map fun e =>
                 ⟨e.id, e.alt, deletedFiles.contains e.id⟩),
               errors := if errs.length > 0 then some errs else none },
             qCalls ++ batches.map RCall.fileDelete)

/-- The POST branch of the remove handler (`api/remove.js`), with upstream
traffic supplied by the `pages` and `delResp` oracles.  Returns the JSON
response and the ordered list of outbound calls. -/
def removeHandler (env : RemoveEnv) (body : RemoveBody) (pages : List PageRes)
    (delResp : Nat → DelRes) : RemoveResponse × List RCall :=
  if !(jsTruthy env.shop && jsTruthy env.token) then
    ({ status := 500, success := false, error := some "Server configuration error",
       detailsMsg := ["Missing SHOPIFY_SHOP or SHOPIFY_ADMIN_TOKEN"] }, [])
  else if !(jsTruthy env.adminPassword) then
    ({ status := 500, success := false, error := some "Server configuration error",
       message := ["Admin password not configured. Please set ADMIN_PASSWORD in environment variables."] }, [])
  else if !(jsTruthy body.adminPassword) then
    ({ status := 401, success := false, error := some "Unauthorized",
       message := ["Admin password is required"] }, [])
  else if body.adminPassword ≠ env.adminPassword then
    ({ status := 401, success := false, error := some "Unauthorized",
       message := ["Invalid admin password"] }, [])
  else if !(jsTruthy body.searchPattern) then
    ({ status := 400, success := false, error := some "Missing searchPattern",
       message := ["Please provide a searchPattern to search for files to remove"] }, [])
  else
    removeCore (body.searchPattern.getD "") pages delResp

/-! ### Upload pipeline (`api/upload.js`, first handler) -/

/-- One staged target returned by `stagedUploadsCreate`. -/
structure StagedTarget where
  url : String
  resourceUrl : String
  parameters : List (String × String)
deriving Repr, DecidableEq

/-- Upstream response to the `stagedUploadsCreate` mutation. -/
inductive StagedRes where
  | notJson
  | gqlErrors (errs : List String)
  | userErrors (errs : List String)
  | networkError
  | ok (stagedTargets : List StagedTarget)
deriving Repr, DecidableEq

/-- Upstream response to the PUT of the bytes to the staged URL. -/
inductive PutRes where
  | ok
  | httpError (status : Nat) (body : String)
  | networkError
deriving Repr, DecidableEq

/-- One file object returned by `fileCreate`, with the subtype-specific
fields of the GraphQL fragments (`url` for GenericFile, `image.url` for
MediaImage, `sources[].url` for Video/Model3d). -/
structure CreatedFile where
  typename : String
  id : String
  status : Option String
  imageUrl : Option String
  url : Option String
  sources : List String
deriving Repr, DecidableEq

/-- Upstream response to the `fileCreate` mutation. -/
inductive CreateRes where
  | notJson
  | gqlErrors (errs : List String)
  | userErrors (errs : List String)
  | networkError
  | ok (files : List CreatedFile)
deriving Repr, DecidableEq

/-- MediaImage node returned by one status poll. -/
structure MediaNode where
  id : String
  status : String
  imageUrl : Option String
deriving Repr, DecidableEq

/-- Upstream response to one `getFileStatus` poll. -/
inductive PollRes where
  | gqlErrors (errs : List String)
  | notFound
  | node (m : MediaNode)
deriving Repr, DecidableEq

/-- Outcome of `pollForMediaReady`: a resolved URL plus file id, or a
thrown error whose message is kept as its template-literal pieces. -/
inductive PollOutcome where
  | success (url fileId : String)
  | failure (msg : List String)
deriving Repr, DecidableEq

/-- Pieces of the timeout message of `pollForMediaReady`
(`maxWaitMs / 1000 = 15`). -/
def pollTimeoutMsg : List String :=
  ["Media processing timeout: Shopify did not complete processing within ",
   Nat.repr 15, " seconds. The image may still be processing in the background."]

/-- Polling loop of `pollForMediaReady` with `maxWaitMs = 15000` and
`pollIntervalMs = 1000`.  The `poll` oracle gives the upstream response to
the `k`-th status query; queries are modelled as instantaneous, so at the
`k`-th guard check `Date.now() - startTime = k * 1000` and the guard
`Date.now() < endTime` reads `k < 15` — recast here as the structural
fuel `15 - k` so the loop evaluates by kernel reduction.  Returns the
outcome (a thrown error keeps its message pieces) and the total number of
status queries issued. -/
def pollForMediaReadyAux (poll : Nat → PollRes) (fuel k : Nat) : PollOutcome × Nat :=
  match fuel with
  | 0 => (.failure pollTimeoutMsg, k)
  | Nat.succ f =>
    match poll k with
    | .gqlErrors _ => (.failure ["Failed to check media status"], k + 1)
    | .notFound => (.failure ["Media not found"], k + 1)
    | .node m =>
      if m.status = "READY" then
        if jsTruthy m.imageUrl then (.success (m.imageUrl.getD "") m.id, k + 1)
        else (.failure ["Media ready but no URL available"], k + 1)
      else if m.status = "FAILED" then (.failure ["Media processing failed"], k + 1)
      else pollForMediaReadyAux poll f (k + 1)

/-- Entry point of the polling loop: 15 seconds of budget at one query
per second. -/
def pollForMediaReady (poll : Nat → PollRes) : PollOutcome × Nat :=
  pollForMediaReadyAux poll 15 0

/-- JSON response of the upload handler, string fields kept as the pieces
the code interpolates. -/
structure UploadResponse where
  status : Nat
  success : Bool
  url : Option String := none
  fileId : Option String := none
  error : Option String := none
  details : List String := []
  message : List String := []
  ready : Option Bool := none
  statusStr : Option String := none
  statusNum : Option Nat := none
deriving Repr, DecidableEq

/-- Outbound calls the upload handler can issue, in order. -/
inductive UCall where
  | stagedUploadsCreate
  | putUpload (targetUrl : String)
  | fileCreate
  | statusQuery
deriving Repr, DecidableEq

/-- Environment configuration read by the upload handler. -/
structure UploadEnv where
  shop : Option String
  token : Option String
deriving Repr, DecidableEq

/-- Request body of the first upload handler. -/
structure UploadBody where
  filename : Option String
  image : Option String
deriving Repr, DecidableEq

/-- Upstream traffic an upload request can observe. -/
structure UploadOracle where
  staged : StagedRes
  put : PutRes
  createFile : CreateRes
  poll : Nat → PollRes

/-- Steps 1-3 and readiness resolution of the first upload handler, after
validation succeeded.  Mirrors `api/upload.js` lines 156-360: staged
upload, PUT to the staged URL, `fileCreate`, then the per-typename URL
resolution with polling for `MediaImage`. -/
def uploadPipeline (orc : UploadOracle) : UploadResponse × List UCall :=
  match orc.staged with
  | .notJson =>
      ({ status := 500, success := false, error := some "Failed to create staged upload",
         details := ["staged upload response not JSON"] }, [.stagedUploadsCreate])
  | .gqlErrors errs =>
      ({ status := 500, success := false, error := some "Failed to create staged upload",
         details := errs }, [.stagedUploadsCreate])
  | .userErrors errs =>
      ({ status := 500, success := false, error := some "Failed to create staged upload",
         details := errs }, [.stagedUploadsCreate])
  | .networkError =>
      ({ status := 500, success := false, error := some "Failed to create staged upload",
         details := ["network error during stagedUploadsCreate"] }, [.stagedUploadsCreate])
  | .ok stagedTargets =>
    match stagedTargets.head? with
    | none =>
        ({ status := 500, success := false, error := some "Failed to create staged upload",
           details := ["no staged target returned"] }, [.stagedUploadsCreate])
    | some stagedTarget =>
      if stagedTarget.url = "" then
        ({ status := 500, success := false, error := some "Failed to create staged upload",
           details := ["no staged target returned"] }, [.stagedUploadsCreate])
      else
        let calls1 := [UCall.stagedUploadsCreate, UCall.putUpload stagedTarget.url]
        match orc.put with
        | .httpError st body =>
            ({ status := 500, success := false, error := some "Failed to upload file to storage",
               details := [body], statusNum := some st }, calls1)
        | .networkError =>
            ({ status := 500, success := false, error := some "Failed to upload file to storage",
               details := ["network error during upload to staged target"] }, calls1)
        | .ok =>
          let calls2 := calls1 ++ [UCall.fileCreate]
          match orc.createFile with
          | .notJson =>
              ({ status := 500, success := false, error := some "Failed to create file in Shopify",
                 details := ["fileCreate response not JSON"] }, calls2)
          | .gqlErrors errs =>
              ({ status := 500, success := false, error := some "Failed to create file in Shopify",
                 details := errs }, calls2)
          | .userErrors errs =>
              ({ status := 500, success := false, error := some "Failed to create file in Shopify",
                 details := errs }, calls2)
          | .networkError =>
              ({ status := 500, success := false, error := some "Failed to create file in Shopify",
                 details := ["network error during fileCreate"] }, calls2)
          | .ok files =>
            match files.head? with
            | none =>
                ({ status := 500, success := false, error := some "Failed to create file in Shopify",
                   details := ["no file returned"] }, calls2)
            | some createdFile =>
              if createdFile.typename = "GenericFile" then
                if jsTruthy createdFile.url then
                  ({ status := 200, success := true, url := some (createdFile.url.getD ""),
                     fileId := some createdFile.id,
                     message := ["File uploaded successfully"] }, calls2)
                else
                  ({ status := 500, success := false, error := some "File created but no URL available",
                     details := ["GenericFile was created but URL is not available"] }, calls2)
              else if createdFile.typename = "MediaImage" then
                let (outcome, polls) := pollForMediaReady orc.poll
                let calls3 := calls2 ++ List.replicate polls UCall.statusQuery
                match outcome with
                | .success u fid =>
                    ({ status := 200, success := true, url := some u, fileId := some fid,
                       message := ["Image uploaded and processed successfully"] }, calls3)
                | .failure msg =>
                    ({ status := 500, success := false, error := some "Image processing timeout",
                       details := msg, fileId := some createdFile.id,
                       statusStr := createdFile.status }, calls3)
              else
                let fileUrl :=
                  if createdFile.typename = "Video" && !createdFile.sources.isEmpty then
                    createdFile.sources.head?
                  else if createdFile.typename = "Model3d" && !createdFile.sources.isEmpty then
                    createdFile.sources.head?
                  else none
                match fileUrl with
                | some u =>
                    ({ status := 200, success := true, url := some u,
                       fileId := some createdFile.id,
                       message := ["File uploaded successfully"] }, calls2)
                | none =>
                    ({ status := 500, success := false, error := some "File created but no URL available",
                       details := ["File was created in Shopify but URL is not accessible"] }, calls2)

/-- The POST branch of the first upload handler: configuration check,
validation, then the pipeline.  Early exits issue no outbound call. -/
def uploadHandler (env : UploadEnv) (body : UploadBody) (orc : UploadOracle) :
    UploadResponse × List UCall :=
  if !(jsTruthy env.shop && jsTruthy env.token) then
    ({ status := 500, success := false,
       error := some "Server configuration error - missing credentials",
       details := ["Environment variables not configured. Please set SHOPIFY_SHOP and SHOPIFY_ADMIN_TOKEN in Vercel dashboard."] }, [])
  else
    match validateUpload body.filename body.image with
    | .reject e => ({ status := 400, success := false, error := some e }, [])
    | .accept _ _ => uploadPipeline orc

/-! ### Rate limiter (spec-modelled) -/

/-- Modelled from the spec: the rate limiter of the upload endpoint is not
present under `src/` — only its test script (`test-rate-limit`) and the
`SECURITY_README` describing it are.  Capacity: `RATE_LIMIT = 50` uploads
per window. -/
def RATE_LIMIT : Nat := 50

/-- Modelled from the spec: window length of the rate limiter, one hour in
milliseconds (`RATE_WINDOW = 60 * 60 * 1000`). -/
def RATE_WINDOW : Nat := 3600000

/-- Modelled from the spec: per-identity record of the limiter's in-memory
table — current count and the timestamp the window started at. -/
structure RateWindow where
  count : Nat
  windowStart : Nat
deriving Repr, DecidableEq

/-- Modelled from the spec: what one admit call reports — whether the call
is allowed, the remaining quota, and the minutes until the window resets
(rounded up). -/
structure AdmitResult where
  allowed : Bool
  remaining : Nat
  resetIn : Nat
deriving Repr, DecidableEq

/-- Modelled from the spec: the limiter's in-memory table, an association
list keyed by caller identity. -/
def RateState := List (String × RateWindow)

/-- Window record stored for `id`, if any. -/
def lookupWindow (s : RateState) (id : String) : Option RateWindow :=
  (s.find? (fun p => p.1 = id)).map (·.2)

/-- Store `w` as the window record of `id`. -/
def setWindow (s : RateState) (id : String) (w : RateWindow) : RateState :=
  match s with
  | [] => [(id, w)]
  | (k, v) :: rest => if k = id then (k, w) :: rest else (k, v) :: setWindow rest id w

/-- Modelled from the spec: window update of one admit call — reset the
window if none exists or the current one has elapsed, then increment the
count. -/
def admitWindow (w : Option RateWindow) (now : Nat) : RateWindow :=
  match w with
  | none => ⟨1, now⟩
  | some r =>
      if now < r.windowStart + RATE_WINDOW then ⟨r.count + 1, r.windowStart⟩
      else ⟨1, now⟩

/-- Modelled from the spec: one admit call for `id` at time `now` —
updates the table and reports allowance (count within capacity), remaining
quota, and minutes until the window resets. -/
def admitOne (s : RateState) (id : String) (now : Nat) : RateState × AdmitResult :=
  let w := admitWindow (lookupWindow s id) now
  (setWindow s id w,
   { allowed := w.count ≤ RATE_LIMIT,
     remaining := RATE_LIMIT - w.count,
     resetIn := (w.windowStart + RATE_WINDOW - now + 59999) / 60000 })

/-- Modelled from the spec: how the upload handler surfaces one admit
call — a denied call is answered 429 with `resetIn`; an allowed call
proceeds to pipeline execution. -/
inductive GateOutcome where
  | proceed (remaining : Nat)
  | reject429 (resetIn : Nat)
deriving Repr, DecidableEq

/-- Gate decision derived from an admit result. -/
def gateOf (r : AdmitResult) : GateOutcome :=
  if r.allowed then .proceed r.remaining else .reject429 r.resetIn

/-- HTTP status of a gate outcome: 429 on denial, otherwise the pipeline
runs and the status is the pipeline's. -/
def gateStatus (g : GateOutcome) : Option Nat :=
  match g with
  | .proceed _ => none
  | .reject429 _ => some 429

/-- Sequence of admit calls for one identity at the given times, returning
the final table and the per-call results in order. -/
def runCalls (id : String) (s : RateState) (ts : List Nat) : RateState × List AdmitResult :=
  match ts with
  | [] => (s, [])
  | t :: rest =>
    let (s', r) := admitOne s id t
    let (s'', rs) := runCalls id s' rest
    (s'', r :: rs)

/-- Expected admit results of a run that stays inside one window starting
at `t0`, when the stored count before the run is `c`. -/
def steadyResults (c t0 : Nat) : List Nat → List AdmitResult
  | [] => []
  | t :: rest =>
      { allowed := c + 1 ≤ RATE_LIMIT, remaining := RATE_LIMIT - (c + 1),
        resetIn := (t0 + RATE_WINDOW - t + 59999) / 60000 } :: steadyResults (c + 1) t0 rest

/-! ### Upload handler variant with status recheck (`api/upload.js`, second handler) -/

/-- Node returned by the `getFile` status query of the second upload
handler: only the MediaImage fragment carries `status` and `image.url`,
so both are optional. -/
structure NodeB where
  typename : String
  id : String
  status : Option String
  imageUrl : Option String
deriving Repr, DecidableEq

/-- Upstream response to the `getFile` status query. -/
inductive StatusRes where
  | notJson
  | gqlErrors (errs : List String)
  | node (n : Option NodeB)
  | networkError
deriving Repr, DecidableEq

/-- Request body of the second upload handler, which also accepts `fileId`. -/
structure UploadBodyB where
  filename : Option String
  image : Option String
  fileId : Option String
deriving Repr, DecidableEq

/-- Steps of the second handler's upload path after `fileCreate`: no
polling — a non-READY status is answered 202 with `ready: false`,
otherwise the URL is extracted per typename. -/
def uploadPipelineB (orc : UploadOracle) : UploadResponse × List UCall :=
  match orc.staged with
  | .notJson =>
      ({ status := 500, success := false, error := some "Failed to create staged upload",
         details := ["staged upload response not JSON"] }, [.stagedUploadsCreate])
  | .gqlErrors errs =>
      ({ status := 500, success := false, error := some "Failed to create staged upload",
         details := errs }, [.stagedUploadsCreate])
  | .userErrors errs =>
      ({ status := 500, success := false, error := some "Failed to create staged upload",
         details := errs }, [.stagedUploadsCreate])
  | .networkError =>
      ({ status := 500, success := false, error := some "Failed to create staged upload",
         details := ["network error during stagedUploadsCreate"] }, [.stagedUploadsCreate])
  | .ok stagedTargets =>
    match stagedTargets.head? with
    | none =>
        ({ status := 500, success := false, error := some "Failed to create staged upload",
           details := ["no staged target returned"] }, [.stagedUploadsCreate])
    | some stagedTarget =>
      if stagedTarget.url = "" then
        ({ status := 500, success := false, error := some "Failed to create staged upload",
           details := ["no staged target returned"] }, [.stagedUploadsCreate])
      else
        let calls1 := [UCall.stagedUploadsCreate, UCall.putUpload stagedTarget.url]
        match orc.put with
        | .httpError st body =>
            ({ status := 500, success := false, error := some "Failed to upload file to storage",
               details := [body], statusNum := some st }, calls1)
        | .networkError =>
            ({ status := 500, success := false, error := some "Failed to upload file to storage",
               details := ["network error during upload to staged target"] }, calls1)
        | .ok =>
          let calls2 := calls1 ++ [UCall.fileCreate]
          match orc.createFile with
          | .notJson =>
              ({ status := 500, success := false, error := some "Failed to create file in Shopify",
                 details := ["fileCreate response not JSON"] }, calls2)
          | .gqlErrors errs =>
              ({ status := 500, success := false, error := some "Failed to create file in Shopify",
                 details := errs }, calls2)
          | .userErrors errs =>
              ({ status := 500, success := false, error := some "Failed to create file in Shopify",
                 details := errs }, calls2)
          | .networkError =>
              ({ status := 500, success := false, error := some "Failed to create file in Shopify",
                 details := ["network error during fileCreate"] }, calls2)
          | .ok files =>
            match files.head? with
            | none =>
                ({ status := 500, success := false, error := some "Failed to create file in Shopify",
                   details := ["no file returned"] }, calls2)
            | some createdFile =>
              if createdFile.status ≠ some "READY" then
                ({ status := 202, success := true,
                   message := ["File uploaded successfully but still processing. Please wait a few seconds and try again."],
                   statusStr := createdFile.status, fileId := some createdFile.id,
                   ready := some false }, calls2)
              else
                let fileUrl :=
                  if createdFile.typename = "GenericFile" && jsTruthy createdFile.url then
                    some (createdFile.url.getD "")
                  else if createdFile.typename = "MediaImage" && jsTruthy createdFile.imageUrl then
                    some (createdFile.imageUrl.getD "")
                  else if createdFile.typename = "Video" && !createdFile.sources.isEmpty then
                    createdFile.sources.head?
                  else if createdFile.typename = "Model3d" && !createdFile.sources.isEmpty then
                    createdFile.sources.head?
                  else none
                match fileUrl with
                | some u =>
                    ({ status := 200, success := true, url := some u,
                       fileId := some createdFile.id,
                       message := ["File uploaded successfully"] }, calls2)
                | none =>
                    ({ status := 500, success := false, error := some "File created but no URL available",
                       details := ["File was created in Shopify but URL is not accessible yet"] }, calls2)

/-- Status-check branch of the second upload handler (`fileId` present in
the body): one `getFile` query, then 404 / 202 / 200 / 500 shaping. -/
def statusCheckBranch (sres : StatusRes) : UploadResponse × List UCall :=
  match sres with
  | .notJson =>
      ({ status := 500, success := false, error := some "Failed to check file status" },
       [.statusQuery])
  | .gqlErrors errs =>
      ({ status := 500, success := false, error := some "Failed to check file status",
         details := errs }, [.statusQuery])
  | .networkError =>
      ({ status := 500, success := false, error := some "Failed to check file status" },
       [.statusQuery])
  | .node none =>
      ({ status := 404, success := false, error := some "File not found" }, [.statusQuery])
  | .node (some fileNode) =>
      if fileNode.status ≠ some "READY" then
        ({ status := 202, success := true,
           message := ["File still processing. Please wait and try again."],
           statusStr := fileNode.status, fileId := some fileNode.id,
           ready := some false }, [.statusQuery])
      else
        let fileUrl :=
          if fileNode.typename = "MediaImage" && jsTruthy fileNode.imageUrl then
            some (fileNode.imageUrl.getD "")
          else none
        match fileUrl with
        | some u =>
            ({ status := 200, success := true, url := some u, fileId := some fileNode.id,
               message := ["File ready"] }, [.statusQuery])
        | none =>
            ({ status := 500, success := false,
               error := some "File ready but no URL available" }, [.statusQuery])

/-- The POST branch of the second upload handler: a truthy `fileId` in the
body routes the request to the status-check branch exclusively; otherwise
the upload path runs (validation, then the pipeline without polling). -/
def uploadHandlerB (env : UploadEnv) (body : UploadBodyB) (sres : StatusRes)
    (orc : UploadOracle) : UploadResponse × List UCall :=
  if !(jsTruthy env.shop && jsTruthy env.token) then
    ({ status := 500, success := false,
       error := some "Server configuration error - missing credentials",
       details := ["Environment variables not configured. Please set SHOPIFY_SHOP and SHOPIFY_ADMIN_TOKEN in Vercel dashboard."] }, [])
  else if jsTruthy body.fileId then
    statusCheckBranch sres
  else
    match validateUpload body.filename body.image with
    | .reject e => ({ status := 400, success := false, error := some e }, [])
    | .accept _ _ => uploadPipelineB orc

/-- The `deletedFileIds` lists the platform returned for the batches with
0-based indices `i, i+1, ..., i+n-1`, concatenated; failing batches
contribute nothing. -/
def returnedDeletedIds (resp : Nat → DelRes) (i n : Nat) : List String :=
  match n with
  | 0 => []
  | Nat.succ m =>
      (match resp i with
       | .parsed ue ids => if ue.length > 0 then [] else ids
       | _ => []) ++ returnedDeletedIds resp (i + 1) m

/-- The error entries collected for the batches with 0-based indices
`i, ..., i+n-1`. -/
def failedEntries (resp : Nat → DelRes) (i n : Nat) : List ErrEntry :=
  match n with
  | 0 => []
  | Nat.succ m =>
      (match resp i with
       | .gqlErrors errs => [⟨i + 1, errs⟩]
       | .thrown msg => [⟨i + 1, [msg]⟩]
       | .parsed ue _ => if ue.length > 0 then [⟨i + 1, ue⟩] else []) ++
      failedEntries resp (i + 1) m

/-- A delete-batch response the handler records as a failure: GraphQL
errors, a thrown error, or a non-empty `userErrors` list. -/
def DelRes.failed : DelRes → Bool
  | .parsed ue _ => decide (0 < ue.length)
  | _ => true

/-- A poll response that keeps the loop waiting: a node whose status is
neither `READY` nor `FAILED`. -/
def pendingPoll (r : PollRes) : Bool :=
  match r with
  | .node m => decide (m.status ≠ "READY") && decide (m.status ≠ "FAILED")
  | _ => false

/-! ### Credential non-echo: string provenance of the response surface -/

/-- All string content serialized into an upload response. -/
def UploadResponse.strings (r : UploadResponse) : List String :=
  r.error.toList ++ r.details ++ r.message ++ r.url.toList ++ r.fileId.toList
  ++ r.statusStr.toList

/-- All string content serialized into a remove response. -/
def RemoveResponse.strings (r : RemoveResponse) : List String :=
  r.error.toList ++ r.message ++ r.detailsMsg
  ++ (match r.details with
      | none => []
      | some ds => ds.flatMap (fun d => d.id :: d.alt.toList))
  ++ (match r.errors with
      | none => []
      | some es => es.flatMap (·.errs))

/-- String content of the upload request body. -/
def UploadBody.strings (b : UploadBody) : List String :=
  b.filename.toList ++ b.image.toList

/-- String content of the remove request body. -/
def RemoveBody.strings (b : RemoveBody) : List String :=
  b.searchPattern.toList ++ b.adminPassword.toList

/-- String content of a `stagedUploadsCreate` response. -/
def StagedRes.strings : StagedRes → List String
  | .notJson => []
  | .networkError => []
  | .gqlErrors errs => errs
  | .userErrors errs => errs
  | .ok ts => ts.flatMap (fun t =>
      t.url :: t.resourceUrl :: t.parameters.flatMap (fun q => [q.1, q.2]))

/-- String content of a staged-PUT response. -/
def PutRes.strings : PutRes → List String
  | .httpError _ b => [b]
  | _ => []

/-- String content of a `fileCreate` response. -/
def CreateRes.strings : CreateRes → List String
  | .notJson => []
  | .networkError => []
  | .gqlErrors errs => errs
  | .userErrors errs => errs
  | .ok fs => fs.flatMap (fun f =>
      f.typename :: f.id :: (f.status.toList ++ f.imageUrl.toList ++ f.url.toList ++ f.sources))

/-- String content of one status-poll response. -/
def PollRes.strings : PollRes → List String
  | .gqlErrors errs => errs
  | .notFound => []
  | .node m => m.id :: m.status :: m.imageUrl.toList

/-- String content of one `getFiles` page response. -/
def PageRes.strings : PageRes → List String
  | .gqlErrors errs => errs
  | .page edges _ => edges.flatMap (fun e => e.id :: e.alt.toList)

/-- String content of one `fileDelete` response. -/
def DelRes.strings : DelRes → List String
  | .gqlErrors errs => errs
  | .parsed ue ids => ue ++ ids
  | .thrown m => [m]

/-- The string originates from the upstream data an upload request saw. -/
def uploadUpstream (orc : UploadOracle) (s : String) : Prop :=
  s ∈ orc.staged.strings ∨ s ∈ orc.put.strings ∨ s ∈ orc.createFile.strings
  ∨ ∃ k, s ∈ (orc.poll k).strings

/-- The string originates from the upstream data a remove request saw. -/
def removeUpstream (pages : List PageRes) (delResp : Nat → DelRes) (s : String) : Prop :=
  (∃ pr ∈ pages, s ∈ pr.strings) ∨ ∃ k, s ∈ (delResp k).strings

/-- Every string literal `api/upload.js` (first handler) can place in a
response. -/
def uploadLiteralPool : List String :=
  ["Server configuration error - missing credentials",
   "Environment variables not configured. Please set SHOPIFY_SHOP and SHOPIFY_ADMIN_TOKEN in Vercel dashboard.",
   "Missing filename or image data", "Invalid image format", "Invalid base64 format",
   "Failed to create staged upload", "staged upload response not JSON",
   "no staged target returned", "network error during stagedUploadsCreate",
   "Failed to upload file to storage", "network error during upload to staged target",
   "Failed to create file in Shopify", "fileCreate response not JSON", "no file returned",
   "network error during fileCreate", "File uploaded successfully",
   "File created but no URL available", "GenericFile was created but URL is not available",
   "File was created in Shopify but URL is not accessible",
   "Image uploaded and processed successfully", "Image processing timeout",
   "Failed to check media status", "Media not found", "Media ready but no URL available",
   "Media processing failed",
   "Media processing timeout: Shopify did not complete processing within ",
   " seconds. The image may still be processing in the background."]

/-- Every string literal `api/remove.js` can place in a response. -/
def removeLiteralPool : List String :=
  ["Server configuration error", "Missing SHOPIFY_SHOP or SHOPIFY_ADMIN_TOKEN",
   "Admin password not configured. Please set ADMIN_PASSWORD in environment variables.",
   "Unauthorized", "Admin password is required", "Invalid admin password",
   "Missing searchPattern", "Please provide a searchPattern to search for files to remove",
   "Search pattern too short",
   "Search pattern must be at least 2 characters to prevent accidental mass deletion",
   "Failed to fetch files", "No files found matching pattern: ", "Too many files",
   "Found ", " files, but maximum ",
   " files can be deleted per request. Please use a more specific search pattern.",
   "Successfully removed ", " files matching pattern: "]

/-- Provenance of one response string of the upload handler: a code
literal, request data, upstream data, or a rendered number. -/
def uploadProvenance (body : UploadBody) (orc : UploadOracle) (s : String) : Prop :=
  s ∈ uploadLiteralPool ∨ s ∈ body.strings ∨ uploadUpstream orc s ∨ ∃ n : Nat, s = Nat.repr n

/-- Provenance of one response string of the remove handler. -/
def removeProvenance (body : RemoveBody) (pages : List PageRes) (delResp : Nat → DelRes)
    (s : String) : Prop :=
  s ∈ removeLiteralPool ∨ s ∈ body.strings ∨ removeUpstream pages delResp s
  ∨ ∃ n : Nat, s = Nat.repr n

/-- Provenance of pipeline response strings: literal pool, upstream data,
or a rendered number (the upload path never consults the request body for
response content). -/
def pipelineProvenance (orc : UploadOracle) (s : String) : Prop :=
  s ∈ uploadLiteralPool ∨ uploadUpstream orc s ∨ ∃ n : Nat, s = Nat.repr n

/-! ### Batching lemmas -/

theorem toBatchesAux_flatten :
    ∀ (fuel : Nat) (l : List α), l.length ≤ fuel → (toBatchesAux fuel l).flatten = l := by
  intro fuel
  induction fuel with
  | zero =>
      intro l hl
      have : l = [] := List.length_eq_zero.mp (Nat.le_zero.mp hl)
      subst this
      rfl
  | succ f ih =>
      intro l hl
      rw [toBatchesAux]
      by_cases he : l.isEmpty
      · rw [if_pos he, List.isEmpty_iff.mp he]
        rfl
      · have hne : l.length ≠ 0 := by
          simpa [List.isEmpty_iff_length_eq_zero] using he
        rw [if_neg he, List.flatten_cons,
          ih (l.drop batchSize) (by simp only [List.length_drop, batchSize]; omega),
          List.take_append_drop]

theorem toBatches_flatten (l : List α) : (toBatches l).flatten = l :=
  toBatchesAux_flatten l.length l (le_refl _)

theorem toBatchesAux_length :
    ∀ (fuel : Nat) (l : List α), l.length ≤ fuel →
      (toBatchesAux fuel l).length = (l.length + 9) / 10 := by
  intro fuel
  induction fuel with
  | zero =>
      intro l hl
      have : l = [] := List.length_eq_zero.mp (Nat.le_zero.mp hl)
      subst this
      norm_num [toBatchesAux]
  | succ f ih =>
      intro l hl
      rw [toBatchesAux]
      by_cases he : l.isEmpty
      · rw [if_pos he, List.isEmpty_iff.mp he]
        norm_num
      · have hne : l.length ≠ 0 := by
          simpa [List.isEmpty_iff_length_eq_zero] using he
        rw [if_neg he, List.length_cons,
          ih (l.drop batchSize) (by simp only [List.length_drop, batchSize]; omega)]
        simp only [List.length_drop, batchSize]
        rcases Nat.lt_or_ge l.length 10 with h | h
        · have h1 : l.length - 10 = 0 := by omega
          rw [h1]
          norm_num
          exact (Nat.div_eq_of_lt_le (by omega) (by omega)).symm
        · have e : l.length + 9 = l.length - 10 + 9 + 10 := by omega
          rw [e, Nat.add_div_right _ (by norm_num)]

theorem toBatches_length (l : List α) : (toBatches l).length = (l.length + 9) / 10 :=
  toBatchesAux_length l.length l (le_refl _)

theorem toBatchesAux_size_le :
    ∀ (fuel : Nat) (l : List α), ∀ b ∈ toBatchesAux fuel l, b.length ≤ 10 := by
  intro fuel
  induction fuel with
  | zero => intro l b hb; simp [toBatchesAux] at hb
  | succ f ih =>
      intro l b hb
      rw [toBatchesAux] at hb
      by_cases he : l.isEmpty
      · rw [if_pos he] at hb
        simp at hb
      · rw [if_neg he] at hb
        rcases List.mem_cons.mp hb with rfl | hb'
        · simp only [List.length_take, batchSize]
          exact inf_le_left
        · exact ih (l.drop batchSize) b hb'

theorem toBatches_size_le (l : List α) : ∀ b ∈ toBatches l, b.length ≤ 10 :=
  toBatchesAux_size_le l.length l

theorem runDeleteBatches_eq (resp : Nat → DelRes) :
    ∀ (bs : List (List String)) (i : Nat),
      runDeleteBatches bs resp i =
        (returnedDeletedIds resp i bs.length, failedEntries resp i bs.length) := by
  intro bs
  induction bs with
  | nil => intro i; simp [runDeleteBatches, returnedDeletedIds, failedEntries]
  | cons b rest ih =>
      intro i
      rw [runDeleteBatches, ih]
      cases h : resp i with
      | gqlErrors errs => simp [returnedDeletedIds, failedEntries, h]
      | thrown msg => simp [returnedDeletedIds, failedEntries, h]
      | parsed ue ids =>
          by_cases hue : ue.length > 0 <;>
            simp [returnedDeletedIds, failedEntries, h, hue]

/-- Under passing configuration and authorization checks, the remove
handler reduces to its enumeration/deletion core. -/
theorem removeHandler_eq_core (env : RemoveEnv) (body : RemoveBody)
    (pages : List PageRes) (delResp : Nat → DelRes) (p : String)
    (hs : jsTruthy env.shop = true) (ht : jsTruthy env.token = true)
    (hp : jsTruthy env.adminPassword = true)
    (hbp : body.adminPassword = env.adminPassword)
    (hpat : body.searchPattern = some p) (hne : p ≠ "") :
    removeHandler env body pages delResp = removeCore p pages delResp := by
  have hj : jsTruthy (some p) = true := by simp [jsTruthy, hne]
  unfold removeHandler
  simp [hs, ht, hp, hbp, hpat, hj]

/-- C3: the remove handler checks authorization before any asset
enumeration: with the configured secret absent it responds 500
`Server configuration error` and issues no outbound call; with the secret
configured, a missing or mismatched supplied secret is answered 401
`Unauthorized`, again with no outbound call (no enumeration, no deletion). -/
theorem remove_auth_precedes_enumeration
    (env : RemoveEnv) (body : RemoveBody) (pages : List PageRes) (delResp : Nat → DelRes) :
    (jsTruthy env.adminPassword = false →
        (removeHandler env body pages delResp).1.status = 500
        ∧ (removeHandler env body pages delResp).1.error = some "Server configuration error"
        ∧ (removeHandler env body pages delResp).2 = [])
    ∧ (jsTruthy env.shop = true → jsTruthy env.token = true →
       jsTruthy env.adminPassword = true →
       (jsTruthy body.adminPassword = false ∨ body.adminPassword ≠ env.adminPassword) →
        (removeHandler env body pages delResp).1.status = 401
        ∧ (removeHandler env body pages delResp).1.error = some "Unauthorized"
        ∧ (removeHandler env body pages delResp).2 = []) := by
  constructor
  · intro hpw
    by_cases h : (jsTruthy env.shop && jsTruthy env.token) = true
    · simp [removeHandler, h, hpw]
    · simp [removeHandler, h]
  · intro hs ht hpw hbad
    rcases hbad with hb | hne
    · simp [removeHandler, hs, ht, hpw, hb]
    · by_cases hb : jsTruthy body.adminPassword = true
      · simp [removeHandler, hs, ht, hpw, hb, hne]
      · simp [removeHandler, hs, ht, hpw, Bool.eq_false_iff.mpr hb]

/-- Witness for `remove_auth_precedes_enumeration`: a wrong supplied
secret gets 401 `Unauthorized` with no outbound call, and an absent
configured secret gets 500 with no outbound call. -/
theorem remove_auth_witness :
    (removeHandler ⟨some "s.myshopify.com", some "tok", some "pw"⟩
        ⟨some "Thomas_Family", some "wrong"⟩ [] (fun _ => DelRes.thrown "x")).1.status = 401
    ∧ (removeHandler ⟨some "s.myshopify.com", some "tok", some "pw"⟩
        ⟨some "Thomas_Family", some "wrong"⟩ [] (fun _ => DelRes.thrown "x")).1.error =
        some "Unauthorized"
    ∧ (removeHandler ⟨some "s.myshopify.com", some "tok", some "pw"⟩
        ⟨some "Thomas_Family", some "wrong"⟩ [] (fun _ => DelRes.thrown "x")).2 = []
    ∧ (removeHandler ⟨some "s.myshopify.com", some "tok", none⟩
        ⟨some "Thomas_Family", some "pw"⟩ [] (fun _ => DelRes.thrown "x")).1.status = 500
    ∧ (removeHandler ⟨some "s.myshopify.com", some "tok", none⟩
        ⟨some "Thomas_Family", some "pw"⟩ [] (fun _ => DelRes.thrown "x")).2 = [] := by
  have h1 := (remove_auth_precedes_enumeration ⟨some "s.myshopify.com", some "tok", some "pw"⟩
      ⟨some "Thomas_Family", some "wrong"⟩ [] (fun _ => DelRes.thrown "x")).2
      (by decide) (by decide) (by decide) (Or.inr (by decide))
  have h2 := (remove_auth_precedes_enumeration ⟨some "s.myshopify.com", some "tok", none⟩
      ⟨some "Thomas_Family", some "pw"⟩ [] (fun _ => DelRes.thrown "x")).1 (by decide)
  exact ⟨h1.1, h1.2.1, h1.2.2, h2.1, h2.2.2⟩

/-- C4: whenever the case-insensitive matched set exceeds the configured
maximum (1000), the remove handler responds 400 `Too many files`
reporting the true matched count, and issues no `fileDelete` call at all;
the only outbound calls are the enumeration queries. -/
theorem remove_over_ceiling_aborts
    (env : RemoveEnv) (body : RemoveBody) (pages : List PageRes) (delResp : Nat → DelRes)
    (p : String) (allFiles : List FileEdge)
    (hs : jsTruthy env.shop = true) (ht : jsTruthy env.token = true)
    (hp : jsTruthy env.adminPassword = true)
    (hbp : body.adminPassword = env.adminPassword)
    (hpat : body.searchPattern = some p) (hp2 : 2 ≤ p.length)
    (hfetch : (fetchAllFiles pages).1 = Except.ok allFiles)
    (hover : MAX_DELETE_PER_REQUEST < (matchingFiles p allFiles).length) :
    (removeHandler env body pages delResp).1.status = 400
    ∧ (removeHandler env body pages delResp).1.error = some "Too many files"
    ∧ (removeHandler env body pages delResp).1.totalMatched =
        some (matchingFiles p allFiles).length
    ∧ (removeHandler env body pages delResp).1.message =
        ["Found ", Nat.repr (matchingFiles p allFiles).length,
         " files, but maximum ", Nat.repr MAX_DELETE_PER_REQUEST,
         " files can be deleted per request. Please use a more specific search pattern."]
    ∧ (removeHandler env body pages delResp).2 =
        List.replicate (fetchAllFiles pages).2 RCall.filesQuery
    ∧ ∀ ids, RCall.fileDelete ids ∉ (removeHandler env body pages delResp).2 := by
  have hne : p ≠ "" := by
    intro h
    rw [h] at hp2
    simp at hp2
  rw [removeHandler_eq_core env body pages delResp p hs ht hp hbp hpat hne]
  have hz : ¬((matchingFiles p allFiles).length = 0) := by
    simp only [MAX_DELETE_PER_REQUEST] at hover
    omega
  unfold removeCore
  rcases hfq : fetchAllFiles pages with ⟨fetched, nq⟩
  have hf : fetched = Except.ok allFiles := by rw [hfq] at hfetch; exact hfetch
  subst hf
  rw [if_neg (by omega : ¬p.length < 2)]
  simp only [hfq]
  rw [if_neg hz, if_pos hover]
  refine ⟨rfl, rfl, rfl, rfl, rfl, ?_⟩
  intro ids
  simp [List.mem_replicate]

/-- Witness for `remove_over_ceiling_aborts`: 1001 files labelled `ab`
matched by pattern `ab` — the handler answers 400 with the true count and
deletes nothing. -/
theorem remove_over_ceiling_witness :
    (removeHandler ⟨some "s.myshopify.com", some "tok", some "pw"⟩ ⟨some "ab", some "pw"⟩
        [PageRes.page (List.replicate 1001 ⟨"gid", some "ab"⟩) false]
        (fun _ => DelRes.thrown "x")).1.status = 400
    ∧ (removeHandler ⟨some "s.myshopify.com", some "tok", some "pw"⟩ ⟨some "ab", some "pw"⟩
        [PageRes.page (List.replicate 1001 ⟨"gid", some "ab"⟩) false]
        (fun _ => DelRes.thrown "x")).1.totalMatched = some 1001
    ∧ ∀ ids, RCall.fileDelete ids ∉
        (removeHandler ⟨some "s.myshopify.com", some "tok", some "pw"⟩ ⟨some "ab", some "pw"⟩
          [PageRes.page (List.replicate 1001 ⟨"gid", some "ab"⟩) false]
          (fun _ => DelRes.thrown "x")).2 := by
  have hlen : (matchingFiles "ab" (List.replicate 1001 ⟨"gid", some "ab"⟩)).length = 1001 := by
    rw [matchingFiles, List.filter_replicate, if_pos (by decide)]
    simp only [List.length_replicate]
  have h := remove_over_ceiling_aborts
      ⟨some "s.myshopify.com", some "tok", some "pw"⟩ ⟨some "ab", some "pw"⟩
      [PageRes.page (List.replicate 1001 ⟨"gid", some "ab"⟩) false]
      (fun _ => DelRes.thrown "x") "ab" (List.replicate 1001 ⟨"gid", some "ab"⟩)
      rfl rfl rfl rfl rfl (by decide) rfl (by rw [hlen]; decide)
  refine ⟨h.1, ?_, h.2.2.2.2.2⟩
  rw [h.2.2.1, hlen]

/-- C5: with a non-empty matched set inside the ceiling, the remove
handler issues exactly one `fileDelete` call per consecutive batch of at
most 10 ids — `ceil(n/10)` calls covering every matched id exactly once —
whatever the per-batch responses are (failures never abort later
batches); the response reports, for every matched asset, its id, label
and a `deleted` flag that is true exactly when the id occurs in the
platform's returned deleted-id lists, with `filesRemoved` the number of
returned deleted ids and `errors` the collected per-batch failures. -/
theorem remove_batched_deletion
    (env : RemoveEnv) (body : RemoveBody) (pages : List PageRes) (delResp : Nat → DelRes)
    (p : String) (allFiles : List FileEdge)
    (hs : jsTruthy env.shop = true) (ht : jsTruthy env.token = true)
    (hp : jsTruthy env.adminPassword = true)
    (hbp : body.adminPassword = env.adminPassword)
    (hpat : body.searchPattern = some p) (hp2 : 2 ≤ p.length)
    (hfetch : (fetchAllFiles pages).1 = Except.ok allFiles)
    (hnz : (matchingFiles p allFiles).length ≠ 0)
    (hle : (matchingFiles p allFiles).length ≤ MAX_DELETE_PER_REQUEST) :
    (removeHandler env body pages delResp).2 =
        List.replicate (fetchAllFiles pages).2 RCall.filesQuery
        ++ (toBatches ((matchingFiles p allFiles).map (·.id))).map RCall.fileDelete
    ∧ (toBatches ((matchingFiles p allFiles).map (·.id))).flatten =
        (matchingFiles p allFiles).map (·.id)
    ∧ (toBatches ((matchingFiles p allFiles).map (·.id))).length =
        ((matchingFiles p allFiles).length + 9) / 10
    ∧ (∀ b ∈ toBatches ((matchingFiles p allFiles).map (·.id)), b.length ≤ 10)
    ∧ (removeHandler env body pages delResp).1.status = 200
    ∧ (removeHandler env body pages delResp).1.details =
        some ((matchingFiles p allFiles).map fun e =>
          ⟨e.id, e.alt,
           (returnedDeletedIds delResp 0
              (toBatches ((matchingFiles p allFiles).map (·.id))).length).contains e.id⟩)
    ∧ (removeHandler env body pages delResp).1.filesRemoved =
        some (returnedDeletedIds delResp 0
          (toBatches ((matchingFiles p allFiles).map (·.id))).length).length
    ∧ (removeHandler env body pages delResp).1.errors =
        (if 0 < (failedEntries delResp 0
              (toBatches ((matchingFiles p allFiles).map (·.id))).length).length then
           some (failedEntries delResp 0
             (toBatches ((matchingFiles p allFiles).map (·.id))).length)
         else none) := by
  have hne : p ≠ "" := by
    intro h
    rw [h] at hp2
    simp at hp2
  rw [removeHandler_eq_core env body pages delResp p hs ht hp hbp hpat hne]
  unfold removeCore
  rcases hfq : fetchAllFiles pages with ⟨fetched, nq⟩
  have hf : fetched = Except.ok allFiles := by rw [hfq] at hfetch; exact hfetch
  subst hf
  rw [if_neg (by omega : ¬p.length < 2)]
  simp only [hfq]
  rw [if_neg hnz, if_neg (by omega : ¬MAX_DELETE_PER_REQUEST < (matchingFiles p allFiles).length)]
  simp only [runDeleteBatches_eq delResp]
  refine ⟨?_, toBatches_flatten _, ?_, toBatches_size_le _, ?_, ?_, ?_, ?_⟩
  all_goals first
    | rfl
    | trivial
    | rw [toBatches_length, List.length_map]

/-- Witness for `remove_batched_deletion`: two matched files, one batch,
one returned deleted id — the report marks exactly that id deleted. -/
theorem remove_batched_deletion_witness :
    (removeHandler ⟨some "s.myshopify.com", some "tok", some "pw"⟩ ⟨some "ab", some "pw"⟩
        [PageRes.page [⟨"g1", some "ab"⟩, ⟨"g2", some "zab"⟩] false]
        (fun _ => DelRes.parsed [] ["g1"])).2 =
      [RCall.filesQuery, RCall.fileDelete ["g1", "g2"]]
    ∧ (removeHandler ⟨some "s.myshopify.com", some "tok", some "pw"⟩ ⟨some "ab", some "pw"⟩
        [PageRes.page [⟨"g1", some "ab"⟩, ⟨"g2", some "zab"⟩] false]
        (fun _ => DelRes.parsed [] ["g1"])).1.filesRemoved = some 1
    ∧ (removeHandler ⟨some "s.myshopify.com", some "tok", some "pw"⟩ ⟨some "ab", some "pw"⟩
        [PageRes.page [⟨"g1", some "ab"⟩, ⟨"g2", some "zab"⟩] false]
        (fun _ => DelRes.parsed [] ["g1"])).1.details =
      some [⟨"g1", some "ab", true⟩, ⟨"g2", some "zab", false⟩] := by
  have h := remove_batched_deletion
      ⟨some "s.myshopify.com", some "tok", some "pw"⟩ ⟨some "ab", some "pw"⟩
      [PageRes.page [⟨"g1", some "ab"⟩, ⟨"g2", some "zab"⟩] false]
      (fun _ => DelRes.parsed [] ["g1"]) "ab" [⟨"g1", some "ab"⟩, ⟨"g2", some "zab"⟩]
      rfl rfl rfl rfl rfl (by decide) rfl (by decide) (by decide)
  refine ⟨?_, ?_, ?_⟩
  · rw [h.1]; decide
  · rw [h.2.2.2.2.2.2.1]; decide
  · rw [h.2.2.2.2.2.1]; decide

theorem returnedDeletedIds_all_failed (resp : Nat → DelRes) :
    ∀ n i, (∀ j, i ≤ j → j < i + n → (resp j).failed = true) →
      returnedDeletedIds resp i n = [] := by
  intro n
  induction n with
  | zero => intro i _; rfl
  | succ m ih =>
      intro i h
      rw [returnedDeletedIds]
      have hi := h i (le_refl i) (by omega)
      have hrest : returnedDeletedIds resp (i + 1) m = [] :=
        ih (i + 1) (fun j h1 h2 => h j (by omega) (by omega))
      cases hr : resp i with
      | gqlErrors errs => simp [hr, hrest]
      | thrown msg => simp [hr, hrest]
      | parsed ue ids =>
          rw [hr] at hi
          simp only [DelRes.failed, decide_eq_true_eq] at hi
          simp [hr, hrest, hi]

theorem failedEntries_all_failed (resp : Nat → DelRes) :
    ∀ n i, (∀ j, i ≤ j → j < i + n → (resp j).failed = true) →
      (failedEntries resp i n).length = n := by
  intro n
  induction n with
  | zero => intro i _; rfl
  | succ m ih =>
      intro i h
      rw [failedEntries]
      have hi := h i (le_refl i) (by omega)
      have hrest : (failedEntries resp (i + 1) m).length = m :=
        ih (i + 1) (fun j h1 h2 => h j (by omega) (by omega))
      cases hr : resp i with
      | gqlErrors errs => simp [hr, hrest]
      | thrown msg => simp [hr, hrest]
      | parsed ue ids =>
          rw [hr] at hi
          simp only [DelRes.failed, decide_eq_true_eq] at hi
          simp [hr, hrest, hi]

/-- C9: with a non-empty matched set inside the ceiling, the remove
handler answers HTTP 200 with `success: true` even when every delete
batch failed — total deletion failure shows only as `filesRemoved: 0`
plus one error entry per batch, never in the status or success flag. -/
theorem remove_success_masks_total_failure
    (env : RemoveEnv) (body : RemoveBody) (pages : List PageRes) (delResp : Nat → DelRes)
    (p : String) (allFiles : List FileEdge)
    (hs : jsTruthy env.shop = true) (ht : jsTruthy env.token = true)
    (hp : jsTruthy env.adminPassword = true)
    (hbp : body.adminPassword = env.adminPassword)
    (hpat : body.searchPattern = some p) (hp2 : 2 ≤ p.length)
    (hfetch : (fetchAllFiles pages).1 = Except.ok allFiles)
    (hnz : (matchingFiles p allFiles).length ≠ 0)
    (hle : (matchingFiles p allFiles).length ≤ MAX_DELETE_PER_REQUEST)
    (hfail : ∀ j, j < (toBatches ((matchingFiles p allFiles).map (·.id))).length →
      (delResp j).failed = true) :
    (removeHandler env body pages delResp).1.status = 200
    ∧ (removeHandler env body pages delResp).1.success = true
    ∧ (removeHandler env body pages delResp).1.filesRemoved = some 0
    ∧ (removeHandler env body pages delResp).1.errors =
        some (failedEntries delResp 0
          (toBatches ((matchingFiles p allFiles).map (·.id))).length)
    ∧ (failedEntries delResp 0
        (toBatches ((matchingFiles p allFiles).map (·.id))).length).length =
        (toBatches ((matchingFiles p allFiles).map (·.id))).length
    ∧ 0 < (toBatches ((matchingFiles p allFiles).map (·.id))).length := by
  have hne : p ≠ "" := by
    intro h
    rw [h] at hp2
    simp at hp2
  have hfail0 : ∀ j, 0 ≤ j →
      j < 0 + (toBatches ((matchingFiles p allFiles).map (·.id))).length →
      (delResp j).failed = true := by
    intro j _ hj
    exact hfail j (by omega)
  have hdels := returnedDeletedIds_all_failed delResp _ 0 hfail0
  have herrs := failedEntries_all_failed delResp _ 0 hfail0
  have hpos : 0 < (toBatches ((matchingFiles p allFiles).map (·.id))).length := by
    rw [toBatches_length, List.length_map]
    rw [Nat.lt_iff_add_one_le, Nat.one_le_div_iff (by norm_num)]
    omega
  rw [removeHandler_eq_core env body pages delResp p hs ht hp hbp hpat hne]
  unfold removeCore
  rcases hfq : fetchAllFiles pages with ⟨fetched, nq⟩
  have hf : fetched = Except.ok allFiles := by rw [hfq] at hfetch; exact hfetch
  subst hf
  rw [if_neg (by omega : ¬p.length < 2)]
  simp only [hfq]
  rw [if_neg hnz, if_neg (by omega : ¬MAX_DELETE_PER_REQUEST < (matchingFiles p allFiles).length)]
  simp only [runDeleteBatches_eq delResp]
  refine ⟨?_, ?_, ?_, ?_, herrs, hpos⟩
  · trivial
  · trivial
  · simp only [hdels]
    rfl
  · rw [if_pos (by rw [herrs]; exact hpos)]

/-- Witness for `remove_success_masks_total_failure`: one matched file,
its only delete batch throws — yet the response is 200 / success with
`filesRemoved: 0` and the error recorded. -/
theorem remove_total_failure_witness :
    (removeHandler ⟨some "s.myshopify.com", some "tok", some "pw"⟩ ⟨some "ab", some "pw"⟩
        [PageRes.page [⟨"g1", some "ab"⟩] false] (fun _ => DelRes.thrown "boom")).1.status = 200
    ∧ (removeHandler ⟨some "s.myshopify.com", some "tok", some "pw"⟩ ⟨some "ab", some "pw"⟩
        [PageRes.page [⟨"g1", some "ab"⟩] false] (fun _ => DelRes.thrown "boom")).1.success = true
    ∧ (removeHandler ⟨some "s.myshopify.com", some "tok", some "pw"⟩ ⟨some "ab", some "pw"⟩
        [PageRes.page [⟨"g1", some "ab"⟩] false]
        (fun _ => DelRes.thrown "boom")).1.filesRemoved = some 0
    ∧ (removeHandler ⟨some "s.myshopify.com", some "tok", some "pw"⟩ ⟨some "ab", some "pw"⟩
        [PageRes.page [⟨"g1", some "ab"⟩] false]
        (fun _ => DelRes.thrown "boom")).1.errors = some [⟨1, ["boom"]⟩] := by
  have h := remove_success_masks_total_failure
      ⟨some "s.myshopify.com", some "tok", some "pw"⟩ ⟨some "ab", some "pw"⟩
      [PageRes.page [⟨"g1", some "ab"⟩] false] (fun _ => DelRes.thrown "boom")
      "ab" [⟨"g1", some "ab"⟩]
      rfl rfl rfl rfl rfl (by decide) rfl (by decide) (by decide) (by decide)
  refine ⟨h.1, h.2.1, h.2.2.1, ?_⟩
  rw [h.2.2.2.1]; decide

theorem pollAux_timeout (poll : Nat → PollRes) :
    ∀ f k, (∀ j, k ≤ j → j < k + f → pendingPoll (poll j) = true) →
      pollForMediaReadyAux poll f k = (.failure pollTimeoutMsg, k + f) := by
  intro f
  induction f with
  | zero => intro k _; rw [pollForMediaReadyAux]; simp
  | succ fm ih =>
      intro k h
      have hk := h k (le_refl k) (by omega)
      rw [pollForMediaReadyAux]
      cases hp : poll k with
      | gqlErrors errs => rw [hp] at hk; simp [pendingPoll] at hk
      | notFound => rw [hp] at hk; simp [pendingPoll] at hk
      | node m =>
          rw [hp] at hk
          simp only [pendingPoll, Bool.and_eq_true, decide_eq_true_eq] at hk
          dsimp only
          rw [if_neg (by simpa using hk.1), if_neg (by simpa using hk.2)]
          rw [ih (k + 1) (fun j h1 h2 => h j (by omega) (by omega))]
          congr 1
          omega

theorem pollAux_skip (poll : Nat → PollRes) :
    ∀ n f k, (∀ j, k ≤ j → j < k + n → pendingPoll (poll j) = true) →
      pollForMediaReadyAux poll (f + n) k = pollForMediaReadyAux poll f (k + n) := by
  intro n
  induction n with
  | zero => intro f k _; rfl
  | succ m ih =>
      intro f k h
      have hk := h k (le_refl k) (by omega)
      rw [show f + (m + 1) = (f + m) + 1 by omega, pollForMediaReadyAux]
      cases hp : poll k with
      | gqlErrors errs => rw [hp] at hk; simp [pendingPoll] at hk
      | notFound => rw [hp] at hk; simp [pendingPoll] at hk
      | node mm =>
          rw [hp] at hk
          simp only [pendingPoll, Bool.and_eq_true, decide_eq_true_eq] at hk
          dsimp only
          rw [if_neg (by simpa using hk.1), if_neg (by simpa using hk.2)]
          rw [ih f (k + 1) (fun j h1 h2 => h j (by omega) (by omega))]
          congr 1
          omega

theorem pollForMediaReady_skip (poll : Nat → PollRes) (k : Nat) (hk : k < 15)
    (h : ∀ j, j < k → pendingPoll (poll j) = true) :
    pollForMediaReady poll = pollForMediaReadyAux poll (15 - k) k := by
  rw [pollForMediaReady, show 15 = (15 - k) + k by omega,
    pollAux_skip poll k (15 - k) 0 (fun j h1 h2 => h j (by omega))]
  simp

/-- C6: the readiness polling loop always terminates within its 15-query
budget: while every response within the window is still pending it times
out with the timeout message after exactly 15 queries; a `READY` response
with a URL at query `k` returns success with that URL after `k + 1`
queries; a `FAILED` response fails after `k + 1` queries; and on timeout
the upload handler answers 500 with the created asset's id in the
response for a later out-of-band recheck. -/
theorem pollForMediaReady_bounded
    (poll : Nat → PollRes) (k : Nat) (m : MediaNode)
    (env : UploadEnv) (body : UploadBody) (orc : UploadOracle)
    (t : StagedTarget) (ts : List StagedTarget) (cf : CreatedFile) (cfs : List CreatedFile)
    (ct b64 : String) :
    ((∀ j, j < 15 → pendingPoll (poll j) = true) →
        pollForMediaReady poll = (.failure pollTimeoutMsg, 15))
    ∧ ((∀ j, j < k → pendingPoll (poll j) = true) → k < 15 →
        poll k = .node m →
        (m.status = "READY" → jsTruthy m.imageUrl = true →
          pollForMediaReady poll = (.success (m.imageUrl.getD "") m.id, k + 1))
        ∧ (m.status = "FAILED" →
          pollForMediaReady poll = (.failure ["Media processing failed"], k + 1)))
    ∧ (jsTruthy env.shop = true → jsTruthy env.token = true →
        validateUpload body.filename body.image = .accept ct b64 →
        orc.staged = .ok (t :: ts) → t.url ≠ "" → orc.put = .ok →
        orc.createFile = .ok (cf :: cfs) → cf.typename = "MediaImage" →
        (∀ j, j < 15 → pendingPoll (orc.poll j) = true) →
        (uploadHandler env body orc).1.status = 500
        ∧ (uploadHandler env body orc).1.fileId = some cf.id
        ∧ (uploadHandler env body orc).1.details = pollTimeoutMsg
        ∧ (uploadHandler env body orc).1.error = some "Image processing timeout") := by
  have timeoutCase : ∀ q : Nat → PollRes, (∀ j, j < 15 → pendingPoll (q j) = true) →
      pollForMediaReady q = (.failure pollTimeoutMsg, 15) := by
    intro q hq
    rw [pollForMediaReady, pollAux_timeout q 15 0 (fun j h1 h2 => hq j (by omega))]
  refine ⟨timeoutCase poll, ?_, ?_⟩
  · intro h hk hp
    rw [pollForMediaReady_skip poll k hk h,
      show 15 - k = (14 - k) + 1 by omega, pollForMediaReadyAux, hp]
    constructor
    · intro hready hurl
      dsimp only
      rw [if_pos hready, if_pos hurl]
    · intro hfailed
      dsimp only
      rw [if_neg (by rw [hfailed]; decide), if_pos hfailed]
  · intro hs ht hvalid hstaged hurl hput hcreate htype hpoll
    have hpr := timeoutCase orc.poll hpoll
    simp only [uploadHandler, hs, ht, Bool.and_self, Bool.not_true,
      Bool.false_eq_true, if_false, hvalid]
    simp only [uploadPipeline, hstaged, hput, hcreate, List.head?_cons, htype, hpr]
    simp [hurl]

/-- Witness for `pollForMediaReady_bounded`: an always-pending node times
out after 15 queries and the handler's 500 response carries the asset id. -/
theorem poll_timeout_witness :
    pollForMediaReady (fun _ => PollRes.node ⟨"gid", "PROCESSING", none⟩) =
      (.failure pollTimeoutMsg, 15)
    ∧ (uploadHandler ⟨some "s.myshopify.com", some "tok"⟩
        ⟨some "a.png", some "data:image/png;base64,aGk="⟩
        ⟨.ok [⟨"https://u", "https://r", []⟩], .ok,
         .ok [⟨"MediaImage", "gid", some "PROCESSING", none, none, []⟩],
         fun _ => PollRes.node ⟨"gid", "PROCESSING", none⟩⟩).1.status = 500
    ∧ (uploadHandler ⟨some "s.myshopify.com", some "tok"⟩
        ⟨some "a.png", some "data:image/png;base64,aGk="⟩
        ⟨.ok [⟨"https://u", "https://r", []⟩], .ok,
         .ok [⟨"MediaImage", "gid", some "PROCESSING", none, none, []⟩],
         fun _ => PollRes.node ⟨"gid", "PROCESSING", none⟩⟩).1.fileId = some "gid" := by
  have h := pollForMediaReady_bounded
      (fun _ => PollRes.node ⟨"gid", "PROCESSING", none⟩) 0 ⟨"gid", "PROCESSING", none⟩
      ⟨some "s.myshopify.com", some "tok"⟩
      ⟨some "a.png", some "data:image/png;base64,aGk="⟩
      ⟨.ok [⟨"https://u", "https://r", []⟩], .ok,
       .ok [⟨"MediaImage", "gid", some "PROCESSING", none, none, []⟩],
       fun _ => PollRes.node ⟨"gid", "PROCESSING", none⟩⟩
      ⟨"https://u", "https://r", []⟩ [] ⟨"MediaImage", "gid", some "PROCESSING", none, none, []⟩ []
      "image/png" "aGk="
  have h3 := h.2.2 rfl rfl (by decide) rfl (by decide) rfl rfl rfl (by decide)
  exact ⟨h.1 (by decide), h3.1, h3.2.1⟩

/-- C7: a poll that reports `READY` with no URL makes the loop fail
immediately with `Media ready but no URL available` after that very
query — it is not retried and no success result is possible. -/
theorem poll_ready_without_url_fails
    (poll : Nat → PollRes) (k : Nat) (m : MediaNode)
    (h : ∀ j, j < k → pendingPoll (poll j) = true) (hk : k < 15)
    (hp : poll k = .node m) (hready : m.status = "READY")
    (hurl : jsTruthy m.imageUrl = false) :
    pollForMediaReady poll = (.failure ["Media ready but no URL available"], k + 1)
    ∧ ∀ u fid n, pollForMediaReady poll ≠ (.success u fid, n) := by
  have heq : pollForMediaReady poll = (.failure ["Media ready but no URL available"], k + 1) := by
    rw [pollForMediaReady_skip poll k hk h,
      show 15 - k = (14 - k) + 1 by omega, pollForMediaReadyAux, hp]
    dsimp only
    rw [if_pos hready, hurl]
    simp
  refine ⟨heq, ?_⟩
  intro u fid n
  rw [heq]
  simp

/-- Witness for `poll_ready_without_url_fails`: `READY` with absent URL
at the very first query. -/
theorem poll_ready_no_url_witness :
    pollForMediaReady (fun _ => PollRes.node ⟨"gid", "READY", none⟩) =
      (.failure ["Media ready but no URL available"], 1)
    ∧ pollForMediaReady (fun _ => PollRes.node ⟨"gid", "READY", none⟩) ≠
        (.success "u" "gid", 1) := by
  have h := poll_ready_without_url_fails
      (fun _ => PollRes.node ⟨"gid", "READY", none⟩) 0 ⟨"gid", "READY", none⟩
      (fun j hj => absurd hj (Nat.not_lt_zero j)) (by decide) rfl rfl rfl
  exact ⟨h.1, h.2 "u" "gid" 1⟩

theorem uploadPipeline_first_call (orc : UploadOracle) :
    (uploadPipeline orc).2.head? = some UCall.stagedUploadsCreate := by
  unfold uploadPipeline
  rcases orc.staged with _ | errs | errs | _ | targets
  · rfl
  · rfl
  · rfl
  · rfl
  · rcases targets with _ | ⟨t, ts⟩
    · rfl
    · dsimp only [List.head?_cons]
      by_cases hu : t.url = ""
      · rw [if_pos hu]
        rfl
      · rw [if_neg hu]
        rcases orc.put with _ | ⟨st, b⟩ | _
        · rcases orc.createFile with _ | errs | errs | _ | files
          · rfl
          · rfl
          · rfl
          · rfl
          · rcases files with _ | ⟨f, fs⟩
            · rfl
            · dsimp only [List.head?_cons]
              by_cases h1 : f.typename = "GenericFile"
              · rw [if_pos h1]
                by_cases h2 : jsTruthy f.url = true
                · rw [if_pos h2]
                  rfl
                · rw [if_neg h2]
                  rfl
              · rw [if_neg h1]
                by_cases h2 : f.typename = "MediaImage"
                · rw [if_pos h2]
                  rcases hpo : pollForMediaReady orc.poll with ⟨outcome, polls⟩
                  rcases outcome with ⟨u, fid⟩ | msg
                  · rfl
                  · rfl
                · rw [if_neg h2]
                  rcases hfu : (if f.typename = "Video" && !f.sources.isEmpty then
                      f.sources.head?
                    else if f.typename = "Model3d" && !f.sources.isEmpty then
                      f.sources.head?
                    else none) with _ | u
                  · rfl
                  · rfl
        · rfl
        · rfl

/-- C1 (amended): with credentials configured, the upload handler's
validation rejects missing fields, non-`data:image/` prefixes and
regex-mismatching data URIs with HTTP 400 before any outbound call, and
every request passing those checks proceeds directly to the staging
call — the decoded byte length is never inspected, so a payload decoding
to 0 bytes (or any length admitted by the framework body limit) reaches
the network. -/
theorem upload_validation_no_length_check
    (env : UploadEnv) (body : UploadBody) (orc : UploadOracle)
    (hs : jsTruthy env.shop = true) (ht : jsTruthy env.token = true) :
    (∀ e, validateUpload body.filename body.image = .reject e →
        (uploadHandler env body orc).1.status = 400
        ∧ (uploadHandler env body orc).1.error = some e
        ∧ (uploadHandler env body orc).2 = [])
    ∧ (∀ ct b64, validateUpload body.filename body.image = .accept ct b64 →
        (uploadHandler env body orc).2.head? = some UCall.stagedUploadsCreate) := by
  constructor
  · intro e he
    simp only [uploadHandler, hs, ht, Bool.and_self, Bool.not_true,
      Bool.false_eq_true, if_false, he]
    refine ⟨?_, ?_, ?_⟩ <;> trivial
  · intro ct b64 hacc
    simp only [uploadHandler, hs, ht, Bool.and_self, Bool.not_true,
      Bool.false_eq_true, if_false, hacc]
    exact uploadPipeline_first_call orc

/-- Counterexample to C1 as stated: the payload `=` decodes to 0 bytes,
yet validation accepts the request and the handler issues the staging
call — it does not fail with HTTP 400 before a network call. -/
theorem upload_zero_byte_reaches_network :
    jsBase64DecodedLen "=" = 0
    ∧ validateUpload (some "a.png") (some "data:image/png;base64,=") =
        UploadValidation.accept "image/png" "="
    ∧ (uploadHandler ⟨some "s.myshopify.com", some "tok"⟩
        ⟨some "a.png", some "data:image/png;base64,="⟩
        ⟨.networkError, .ok, .ok [], fun _ => .notFound⟩).2 = [UCall.stagedUploadsCreate]
    ∧ ¬((uploadHandler ⟨some "s.myshopify.com", some "tok"⟩
        ⟨some "a.png", some "data:image/png;base64,="⟩
        ⟨.networkError, .ok, .ok [], fun _ => .notFound⟩).1.status = 400) :=
  ⟨by decide, by decide, by decide, by decide⟩

/-- Witness for `upload_validation_no_length_check`: the zero-byte data
URI proceeds to staging, while a malformed image string gets 400 with no
outbound call. -/
theorem upload_validation_witness :
    (uploadHandler ⟨some "s.myshopify.com", some "tok"⟩
        ⟨some "a.png", some "data:image/png;base64,="⟩
        ⟨.networkError, .ok, .ok [], fun _ => .notFound⟩).2.head? =
      some UCall.stagedUploadsCreate
    ∧ (uploadHandler ⟨some "s.myshopify.com", some "tok"⟩
        ⟨some "a.png", some "hello"⟩
        ⟨.networkError, .ok, .ok [], fun _ => .notFound⟩).1.status = 400
    ∧ (uploadHandler ⟨some "s.myshopify.com", some "tok"⟩
        ⟨some "a.png", some "hello"⟩
        ⟨.networkError, .ok, .ok [], fun _ => .notFound⟩).2 = [] := by
  have h1 := (upload_validation_no_length_check ⟨some "s.myshopify.com", some "tok"⟩
      ⟨some "a.png", some "data:image/png;base64,="⟩
      ⟨.networkError, .ok, .ok [], fun _ => .notFound⟩ rfl rfl).2
      "image/png" "=" (by decide)
  have h2 := (upload_validation_no_length_check ⟨some "s.myshopify.com", some "tok"⟩
      ⟨some "a.png", some "hello"⟩
      ⟨.networkError, .ok, .ok [], fun _ => .notFound⟩ rfl rfl).1
      "Invalid image format" (by decide)
  exact ⟨h1, h2.1, h2.2.2⟩

theorem lookupWindow_setWindow (s : RateState) (id : String) (w : RateWindow) :
    lookupWindow (setWindow s id w) id = some w := by
  induction s with
  | nil => simp [setWindow, lookupWindow, List.find?]
  | cons p rest ih =>
      rcases p with ⟨k, v⟩
      rw [setWindow]
      by_cases hk : k = id
      · rw [if_pos hk]
        simp [lookupWindow, List.find?, hk]
      · rw [if_neg hk]
        simpa [lookupWindow, List.find?, hk] using ih

theorem runCalls_steady (id : String) :
    ∀ (ts : List Nat) (s : RateState) (c t0 : Nat),
      lookupWindow s id = some ⟨c, t0⟩ →
      (∀ t ∈ ts, t < t0 + RATE_WINDOW) →
      (runCalls id s ts).2 = steadyResults c t0 ts
      ∧ lookupWindow (runCalls id s ts).1 id = some ⟨c + ts.length, t0⟩ := by
  intro ts
  induction ts with
  | nil => intro s c t0 hs _; exact ⟨rfl, by simpa using hs⟩
  | cons t rest ih =>
      intro s c t0 hs hin
      have ht := hin t (List.mem_cons_self t rest)
      rw [runCalls]
      have hadm : admitOne s id t =
          (setWindow s id ⟨c + 1, t0⟩,
           { allowed := decide (c + 1 ≤ RATE_LIMIT), remaining := RATE_LIMIT - (c + 1),
             resetIn := (t0 + RATE_WINDOW - t + 59999) / 60000 }) := by
        rw [admitOne, hs]
        simp [admitWindow, ht]
      rw [hadm]
      dsimp only
      obtain ⟨h1, h2⟩ := ih (setWindow s id ⟨c + 1, t0⟩) (c + 1) t0
        (lookupWindow_setWindow s id ⟨c + 1, t0⟩)
        (fun x hx => hin x (List.mem_cons_of_mem t hx))
      refine ⟨?_, ?_⟩
      · rw [h1, steadyResults]
      · rw [h2, show c + 1 + rest.length = c + (t :: rest).length by
          rw [List.length_cons]; omega]

theorem steadyResults_get? (t0 : Nat) :
    ∀ (ts : List Nat) (c i t : Nat), ts.get? i = some t →
      (steadyResults c t0 ts).get? i = some
        { allowed := decide (c + i + 1 ≤ RATE_LIMIT),
          remaining := RATE_LIMIT - (c + i + 1),
          resetIn := (t0 + RATE_WINDOW - t + 59999) / 60000 } := by
  intro ts
  induction ts with
  | nil => intro c i t h; simp at h
  | cons x rest ih =>
      intro c i t h
      cases i with
      | zero =>
          simp only [List.get?] at h
          cases h
          rw [steadyResults]
          rfl
      | succ j =>
          simp only [List.get?] at h
          rw [steadyResults]
          show (steadyResults (c + 1) t0 rest).get? j = _
          rw [ih (c + 1) j t h,
            show c + 1 + j + 1 = c + (j + 1) + 1 by omega]

theorem steadyResults_length (t0 : Nat) :
    ∀ (ts : List Nat) (c : Nat), (steadyResults c t0 ts).length = ts.length := by
  intro ts
  induction ts with
  | nil => intro c; rfl
  | cons x rest ih => intro c; rw [steadyResults]; simp [ih]

theorem runCalls_from_empty (id : String) (t0 : Nat) (rest : List Nat)
    (hin : ∀ t ∈ rest, t < t0 + RATE_WINDOW) :
    (runCalls id [] (t0 :: rest)).2 = steadyResults 0 t0 (t0 :: rest)
    ∧ lookupWindow (runCalls id [] (t0 :: rest)).1 id = some ⟨rest.length + 1, t0⟩ := by
  rw [runCalls]
  have hadm : admitOne [] id t0 = (setWindow [] id ⟨1, t0⟩,
      { allowed := decide (1 ≤ RATE_LIMIT), remaining := RATE_LIMIT - 1,
        resetIn := (t0 + RATE_WINDOW - t0 + 59999) / 60000 }) := rfl
  rw [hadm]
  dsimp only
  obtain ⟨h1, h2⟩ := runCalls_steady id rest (setWindow [] id ⟨1, t0⟩) 1 t0
    (lookupWindow_setWindow [] id ⟨1, t0⟩) hin
  refine ⟨?_, ?_⟩
  · rw [h1, steadyResults]
  · rw [h2, show 1 + rest.length = rest.length + 1 by omega]

/-- C2 (spec-modelled): for any identity, 51 calls inside one window from
its start admit calls 1-50 (the gate proceeds to the pipeline with the
remaining quota) and deny call 51 with a 429 outcome whose `resetIn` is
positive; the first call at or after the window's end is admitted with a
fresh count of 1. -/
theorem rate_limiter_fixed_window
    (id : String) (t0 : Nat) (ts : List Nat)
    (hhead : ts.head? = some t0)
    (hin : ∀ t ∈ ts, t0 ≤ t ∧ t < t0 + RATE_WINDOW)
    (hlen : ts.length = RATE_LIMIT + 1) :
    (runCalls id [] ts).2 = steadyResults 0 t0 ts
    ∧ (∀ i r, ((runCalls id [] ts).2).get? i = some r → i < RATE_LIMIT →
        r.allowed = true ∧ gateOf r = .proceed (RATE_LIMIT - (i + 1)))
    ∧ (∃ r, ((runCalls id [] ts).2).get? RATE_LIMIT = some r
        ∧ r.allowed = false ∧ 0 < r.resetIn
        ∧ gateOf r = .reject429 r.resetIn
        ∧ gateStatus (gateOf r) = some 429)
    ∧ (∀ t1, t0 + RATE_WINDOW ≤ t1 →
        (admitOne (runCalls id [] ts).1 id t1).2.allowed = true
        ∧ (admitOne (runCalls id [] ts).1 id t1).2.remaining = RATE_LIMIT - 1
        ∧ lookupWindow (admitOne (runCalls id [] ts).1 id t1).1 id = some ⟨1, t1⟩) := by
  rcases ts with _ | ⟨t, rest⟩
  · simp at hhead
  · have ht0 : t0 = t := (show t = t0 by simpa using hhead).symm
    subst ht0
    obtain ⟨hres, hstate⟩ := runCalls_from_empty id t0 rest
      (fun x hx => (hin x (List.mem_cons_of_mem t0 hx)).2)
    have hrl : rest.length + 1 = RATE_LIMIT + 1 := by simpa using hlen
    have hget : ∀ i, i < RATE_LIMIT + 1 → ∃ tv, (t0 :: rest).get? i = some tv := by
      intro i hi
      have hnone : (t0 :: rest).get? i ≠ none := by
        rw [ne_eq, List.get?_eq_none]
        simp only [List.length_cons]
        omega
      cases h : (t0 :: rest).get? i with
      | none => exact absurd h hnone
      | some tv => exact ⟨tv, rfl⟩
    refine ⟨hres, ?_, ?_, ?_⟩
    · intro i r hr hi
      obtain ⟨tv, htv⟩ := hget i (by omega)
      rw [hres, steadyResults_get? t0 (t0 :: rest) 0 i tv htv] at hr
      have hr2 := (Option.some_inj.mp hr).symm
      subst hr2
      have hall : decide (0 + i + 1 ≤ RATE_LIMIT) = true := by
        simp only [decide_eq_true_eq]
        omega
      refine ⟨hall, ?_⟩
      rw [gateOf, if_pos hall]
      simp only [Nat.zero_add]
    · obtain ⟨tv, htv⟩ := hget RATE_LIMIT (by omega)
      have htb := hin tv (List.get?_mem htv)
      have hr : ((runCalls id [] (t0 :: rest)).2).get? RATE_LIMIT = some
          { allowed := decide (0 + RATE_LIMIT + 1 ≤ RATE_LIMIT),
            remaining := RATE_LIMIT - (0 + RATE_LIMIT + 1),
            resetIn := (t0 + RATE_WINDOW - tv + 59999) / 60000 } := by
        rw [hres]
        exact steadyResults_get? t0 (t0 :: rest) 0 RATE_LIMIT tv htv
      have hfalse : decide (0 + RATE_LIMIT + 1 ≤ RATE_LIMIT) = false := by decide
      refine ⟨_, hr, hfalse, ?_,
        by rw [gateOf, if_neg (show ¬decide (0 + RATE_LIMIT + 1 ≤ RATE_LIMIT) = true by decide)],
        ?_⟩
      · show 0 < (t0 + RATE_WINDOW - tv + 59999) / 60000
        rw [Nat.lt_iff_add_one_le, Nat.one_le_div_iff (by norm_num : (0:Nat) < 60000)]
        omega
      · rw [gateOf, if_neg (show ¬decide (0 + RATE_LIMIT + 1 ≤ RATE_LIMIT) = true by decide)]
        rfl
    · intro t1 ht1
      have hadm : admitOne (runCalls id [] (t0 :: rest)).1 id t1 =
          (setWindow (runCalls id [] (t0 :: rest)).1 id ⟨1, t1⟩,
           { allowed := decide (1 ≤ RATE_LIMIT), remaining := RATE_LIMIT - 1,
             resetIn := (t1 + RATE_WINDOW - t1 + 59999) / 60000 }) := by
        rw [admitOne, hstate]
        simp [admitWindow, Nat.not_lt.mpr ht1]
      rw [hadm]
      exact ⟨show decide (1 ≤ RATE_LIMIT) = true by decide, rfl,
        lookupWindow_setWindow _ _ _⟩

theorem rate_limiter_witness :
    (runCalls "ip1" [] (List.replicate 51 0)).2 = steadyResults 0 0 (List.replicate 51 0)
    ∧ (∃ r, ((runCalls "ip1" [] (List.replicate 51 0)).2).get? RATE_LIMIT = some r
        ∧ r.allowed = false ∧ 0 < r.resetIn ∧ gateOf r = .reject429 r.resetIn
        ∧ gateStatus (gateOf r) = some 429)
    ∧ (admitOne (runCalls "ip1" [] (List.replicate 51 0)).1 "ip1" RATE_WINDOW).2.allowed = true
    ∧ lookupWindow (admitOne (runCalls "ip1" [] (List.replicate 51 0)).1 "ip1" RATE_WINDOW).1 "ip1"
        = some ⟨1, RATE_WINDOW⟩ := by
  have h := rate_limiter_fixed_window "ip1" 0 (List.replicate 51 0) (by decide)
      (by
        intro t ht
        rw [List.eq_of_mem_replicate ht]
        exact ⟨le_refl 0, by decide⟩)
      (by decide)
  have h4 := h.2.2.2 RATE_WINDOW (by omega)
  exact ⟨h.1, h.2.2.1, h4.1, h4.2.2⟩

theorem statusCheckBranch_calls (sres : StatusRes) :
    (statusCheckBranch sres).2 = [UCall.statusQuery] := by
  unfold statusCheckBranch
  rcases sres with _ | errs | n | _
  · rfl
  · rfl
  · rcases n with _ | fileNode
    · rfl
    · dsimp only
      by_cases hst : fileNode.status ≠ some "READY"
      · rw [if_pos hst]
      · rw [if_neg hst]
        rcases hfu : (if fileNode.typename = "MediaImage" && jsTruthy fileNode.imageUrl then
            some (fileNode.imageUrl.getD "") else none) with _ | u
        · rfl
        · rfl
  · rfl

/-- C10 (amended): with a truthy `fileId` in the body, the second upload
handler issues only the one status query — never staging, transfer or
finalize, even when `filename` and `image` are also present — and answers
404 when the node is missing, 202 with `ready: false` when the status is
not `READY`, 200 with the URL when `READY` and a MediaImage URL is
present, and 500 `File ready but no URL available` when `READY` but no
URL is available. -/
theorem statusCheck_exclusive
    (env : UploadEnv) (body : UploadBodyB) (sres : StatusRes) (orc : UploadOracle)
    (hs : jsTruthy env.shop = true) (ht : jsTruthy env.token = true)
    (hf : jsTruthy body.fileId = true) :
    (uploadHandlerB env body sres orc).2 = [UCall.statusQuery]
    ∧ (sres = .node none →
        (uploadHandlerB env body sres orc).1.status = 404
        ∧ (uploadHandlerB env body sres orc).1.error = some "File not found")
    ∧ (∀ n, sres = .node (some n) → n.status ≠ some "READY" →
        (uploadHandlerB env body sres orc).1.status = 202
        ∧ (uploadHandlerB env body sres orc).1.success = true
        ∧ (uploadHandlerB env body sres orc).1.ready = some false
        ∧ (uploadHandlerB env body sres orc).1.fileId = some n.id)
    ∧ (∀ n u, sres = .node (some n) → n.status = some "READY" →
        n.typename = "MediaImage" → n.imageUrl = some u → u ≠ "" →
        (uploadHandlerB env body sres orc).1.status = 200
        ∧ (uploadHandlerB env body sres orc).1.url = some u
        ∧ (uploadHandlerB env body sres orc).1.fileId = some n.id)
    ∧ (∀ n, sres = .node (some n) → n.status = some "READY" →
        (n.typename = "MediaImage" && jsTruthy n.imageUrl) = false →
        (uploadHandlerB env body sres orc).1.status = 500
        ∧ (uploadHandlerB env body sres orc).1.error = some "File ready but no URL available") := by
  have hred : uploadHandlerB env body sres orc = statusCheckBranch sres := by
    rw [uploadHandlerB]
    simp [hs, ht, hf]
  rw [hred]
  refine ⟨statusCheckBranch_calls sres, ?_, ?_, ?_, ?_⟩
  · intro hn
    rw [hn]
    exact ⟨rfl, rfl⟩
  · intro n hn hst
    rw [hn, statusCheckBranch]
    dsimp only
    rw [if_pos hst]
    exact ⟨rfl, rfl, rfl, rfl⟩
  · intro n u hn hst htype hurl hu
    rw [hn, statusCheckBranch]
    dsimp only
    rw [if_neg (by rw [hst]; simp), htype, hurl]
    have : jsTruthy (some u) = true := by simp [jsTruthy, hu]
    simp [this]
  · intro n hn hst hno
    rw [hn, statusCheckBranch]
    dsimp only
    rw [if_neg (by rw [hst]; simp), hno]
    simp

/-- Counterexample to C10 as stated: a node reported `READY` without a
URL is answered 500, not 200 — so the claim's clause that a READY status
yields a 200 with the URL does not hold in this edge case. -/
theorem statusCheck_ready_without_url_counterexample :
    (uploadHandlerB ⟨some "s.myshopify.com", some "tok"⟩
        ⟨some "a.png", some "data:image/png;base64,aGk=", some "gid"⟩
        (.node (some ⟨"MediaImage", "gid", some "READY", none⟩))
        ⟨.networkError, .ok, .ok [], fun _ => .notFound⟩).1.status = 500
    ∧ ¬((uploadHandlerB ⟨some "s.myshopify.com", some "tok"⟩
        ⟨some "a.png", some "data:image/png;base64,aGk=", some "gid"⟩
        (.node (some ⟨"MediaImage", "gid", some "READY", none⟩))
        ⟨.networkError, .ok, .ok [], fun _ => .notFound⟩).1.status = 200)
    ∧ (uploadHandlerB ⟨some "s.myshopify.com", some "tok"⟩
        ⟨some "a.png", some "data:image/png;base64,aGk=", some "gid"⟩
        (.node (some ⟨"MediaImage", "gid", some "READY", none⟩))
        ⟨.networkError, .ok, .ok [], fun _ => .notFound⟩).1.error =
        some "File ready but no URL available"
    ∧ (uploadHandlerB ⟨some "s.myshopify.com", some "tok"⟩
        ⟨some "a.png", some "data:image/png;base64,aGk=", some "gid"⟩
        (.node (some ⟨"MediaImage", "gid", some "READY", none⟩))
        ⟨.networkError, .ok, .ok [], fun _ => .notFound⟩).2 = [UCall.statusQuery] :=
  ⟨by decide, by decide, by decide, by decide⟩

/-- Witness for `statusCheck_exclusive`: READY with URL gets 200 and only
the status query; PROCESSING gets 202; a missing node gets 404. -/
theorem statusCheck_witness :
    (uploadHandlerB ⟨some "s.myshopify.com", some "tok"⟩
        ⟨some "a.png", some "data:image/png;base64,aGk=", some "gid"⟩
        (.node (some ⟨"MediaImage", "gid", some "READY", some "https://cdn/x.png"⟩))
        ⟨.networkError, .ok, .ok [], fun _ => .notFound⟩).1.status = 200
    ∧ (uploadHandlerB ⟨some "s.myshopify.com", some "tok"⟩
        ⟨some "a.png", some "data:image/png;base64,aGk=", some "gid"⟩
        (.node (some ⟨"MediaImage", "gid", some "READY", some "https://cdn/x.png"⟩))
        ⟨.networkError, .ok, .ok [], fun _ => .notFound⟩).1.url = some "https://cdn/x.png"
    ∧ (uploadHandlerB ⟨some "s.myshopify.com", some "tok"⟩
        ⟨some "a.png", some "data:image/png;base64,aGk=", some "gid"⟩
        (.node (some ⟨"MediaImage", "gid", some "READY", some "https://cdn/x.png"⟩))
        ⟨.networkError, .ok, .ok [], fun _ => .notFound⟩).2 = [UCall.statusQuery]
    ∧ (uploadHandlerB ⟨some "s.myshopify.com", some "tok"⟩
        ⟨some "a.png", some "data:image/png;base64,aGk=", some "gid"⟩
        (.node (some ⟨"MediaImage", "gid", some "PROCESSING", none⟩))
        ⟨.networkError, .ok, .ok [], fun _ => .notFound⟩).1.status = 202
    ∧ (uploadHandlerB ⟨some "s.myshopify.com", some "tok"⟩
        ⟨some "a.png", some "data:image/png;base64,aGk=", some "gid"⟩
        (.node none) ⟨.networkError, .ok, .ok [], fun _ => .notFound⟩).1.status = 404 := by
  have h1 := statusCheck_exclusive ⟨some "s.myshopify.com", some "tok"⟩
      ⟨some "a.png", some "data:image/png;base64,aGk=", some "gid"⟩
      (.node (some ⟨"MediaImage", "gid", some "READY", some "https://cdn/x.png"⟩))
      ⟨.networkError, .ok, .ok [], fun _ => .notFound⟩ rfl rfl rfl
  have h200 := h1.2.2.2.1 ⟨"MediaImage", "gid", some "READY", some "https://cdn/x.png"⟩
      "https://cdn/x.png" rfl rfl rfl rfl (by decide)
  have h2 := statusCheck_exclusive ⟨some "s.myshopify.com", some "tok"⟩
      ⟨some "a.png", some "data:image/png;base64,aGk=", some "gid"⟩
      (.node (some ⟨"MediaImage", "gid", some "PROCESSING", none⟩))
      ⟨.networkError, .ok, .ok [], fun _ => .notFound⟩ rfl rfl rfl
  have h202 := h2.2.2.1 ⟨"MediaImage", "gid", some "PROCESSING", none⟩ rfl (by decide)
  have h3 := statusCheck_exclusive ⟨some "s.myshopify.com", some "tok"⟩
      ⟨some "a.png", some "data:image/png;base64,aGk=", some "gid"⟩
      (.node none) ⟨.networkError, .ok, .ok [], fun _ => .notFound⟩ rfl rfl rfl
  exact ⟨h200.1, h200.2.1, h1.1, h202.1, (h3.2.1 rfl).1⟩

theorem validateUpload_reject_lit (f i : Option String) (e : String)
    (h : validateUpload f i = .reject e) : e ∈ uploadLiteralPool := by
  unfold validateUpload at h
  split at h
  · cases h
    decide
  · dsimp only at h
    split at h
    · cases h
      decide
    · split at h
      · cases h
        decide
      · cases h

theorem pollAux_strings (poll : Nat → PollRes) :
    ∀ fuel k,
      (∀ u fid n, pollForMediaReadyAux poll fuel k = (.success u fid, n) →
        ∃ j, u ∈ (poll j).strings ∧ fid ∈ (poll j).strings)
      ∧ (∀ msg n, pollForMediaReadyAux poll fuel k = (.failure msg, n) →
        ∀ x ∈ msg, x ∈ uploadLiteralPool ∨ ∃ m : Nat, x = Nat.repr m) := by
  intro fuel
  induction fuel with
  | zero =>
      intro k
      constructor
      · intro u fid n h
        rw [pollForMediaReadyAux] at h
        cases h
      · intro msg n h x hx
        rw [pollForMediaReadyAux] at h
        injection h with h1 h2
        injection h1 with h1
        subst h1
        simp only [pollTimeoutMsg, List.mem_cons, List.not_mem_nil, or_false] at hx
        rcases hx with rfl | rfl | rfl
        · left; decide
        · right; exact ⟨15, rfl⟩
        · left; decide
  | succ f ih =>
      intro k
      constructor
      · intro u fid n h
        rw [pollForMediaReadyAux] at h
        cases hp : poll k with
        | gqlErrors errs => rw [hp] at h; cases h
        | notFound => rw [hp] at h; cases h
        | node m =>
            rw [hp] at h
            dsimp only at h
            by_cases hready : m.status = "READY"
            · rw [if_pos hready] at h
              by_cases hurl : jsTruthy m.imageUrl = true
              · rw [if_pos hurl] at h
                injection h with h1 h2
                injection h1 with hu hf
                subst hu
                subst hf
                refine ⟨k, ?_, ?_⟩
                · cases him : m.imageUrl with
                  | none => rw [him] at hurl; simp [jsTruthy] at hurl
                  | some v =>
                      rw [hp, PollRes.strings, him]
                      simp
                · rw [hp, PollRes.strings]
                  simp
              · rw [if_neg hurl] at h
                cases h
            · rw [if_neg hready] at h
              by_cases hfail : m.status = "FAILED"
              · rw [if_pos hfail] at h
                cases h
              · rw [if_neg hfail] at h
                exact (ih (k + 1)).1 u fid n h
      · intro msg n h x hx
        rw [pollForMediaReadyAux] at h
        cases hp : poll k with
        | gqlErrors errs =>
            rw [hp] at h
            injection h with h1 h2
            injection h1 with h1
            subst h1
            simp only [List.mem_cons, List.not_mem_nil, or_false] at hx
            subst hx
            left; decide
        | notFound =>
            rw [hp] at h
            injection h with h1 h2
            injection h1 with h1
            subst h1
            simp only [List.mem_cons, List.not_mem_nil, or_false] at hx
            subst hx
            left; decide
        | node m =>
            rw [hp] at h
            dsimp only at h
            by_cases hready : m.status = "READY"
            · rw [if_pos hready] at h
              by_cases hurl : jsTruthy m.imageUrl = true
              · rw [if_pos hurl] at h
                cases h
              · rw [if_neg hurl] at h
                injection h with h1 h2
                injection h1 with h1
                subst h1
                simp only [List.mem_cons, List.not_mem_nil, or_false] at hx
                subst hx
                left; decide
            · rw [if_neg hready] at h
              by_cases hfail : m.status = "FAILED"
              · rw [if_pos hfail] at h
                injection h with h1 h2
                injection h1 with h1
                subst h1
                simp only [List.mem_cons, List.not_mem_nil, or_false] at hx
                subst hx
                left; decide
              · rw [if_neg hfail] at h
                exact (ih (k + 1)).2 msg n h x hx

theorem fetchAllFiles_error_strings :
    ∀ (pages : List PageRes) (errs : List String),
      (fetchAllFiles pages).1 = .error errs →
      ∃ pr ∈ pages, ∀ x ∈ errs, x ∈ pr.strings := by
  intro pages
  induction pages with
  | nil => intro errs h; cases h
  | cons pr rest ih =>
      intro errs h
      cases pr with
      | gqlErrors e0 =>
          rw [fetchAllFiles] at h
          injection h with h1
          subst h1
          exact ⟨.gqlErrors e0, List.mem_cons_self _ _, fun x hx => hx⟩
      | page edges hasNext =>
          cases hasNext with
          | true =>
              rw [fetchAllFiles] at h
              dsimp only at h
              cases hr : (fetchAllFiles rest).1 with
              | error e1 =>
                  rw [hr] at h
                  injection h with h1
                  subst h1
                  obtain ⟨pr', hpr', hall⟩ := ih e1 hr
                  exact ⟨pr', List.mem_cons_of_mem _ hpr', hall⟩
              | ok l =>
                  rw [hr] at h
                  cases h
          | false =>
              rw [fetchAllFiles] at h
              cases h

theorem fetchAllFiles_ok_strings :
    ∀ (pages : List PageRes) (allFiles : List FileEdge),
      (fetchAllFiles pages).1 = .ok allFiles →
      ∀ e ∈ allFiles, ∀ x, (x = e.id ∨ x ∈ e.alt.toList) →
      ∃ pr ∈ pages, x ∈ pr.strings := by
  intro pages
  induction pages with
  | nil =>
      intro allFiles h e he x hx
      injection h with h1
      subst h1
      cases he
  | cons pr rest ih =>
      intro allFiles h e he x hx
      cases pr with
      | gqlErrors e0 => cases h
      | page edges hasNext =>
          have hedge : ∀ e2 ∈ edges, x = e2.id ∨ x ∈ e2.alt.toList →
              x ∈ (PageRes.page edges hasNext).strings := by
            intro e2 he2 hx2
            rw [PageRes.strings]
            refine List.mem_flatMap.mpr ⟨e2, he2, ?_⟩
            rcases hx2 with rfl | hx2
            · exact List.mem_cons_self _ _
            · exact List.mem_cons_of_mem _ hx2
          cases hasNext with
          | true =>
              rw [fetchAllFiles] at h
              dsimp only at h
              cases hr : (fetchAllFiles rest).1 with
              | error e1 => rw [hr] at h; cases h
              | ok l =>
                  rw [hr] at h
                  injection h with h1
                  subst h1
                  rcases List.mem_append.mp he with he' | he'
                  · exact ⟨_, List.mem_cons_self _ _, hedge e he' hx⟩
                  · obtain ⟨pr', hpr', hx'⟩ := ih l hr e he' x hx
                    exact ⟨pr', List.mem_cons_of_mem _ hpr', hx'⟩
          | false =>
              rw [fetchAllFiles] at h
              injection h with h1
              subst h1
              exact ⟨_, List.mem_cons_self _ _, hedge e he hx⟩

theorem failedEntries_strings (resp : Nat → DelRes) :
    ∀ (n i : Nat) (ent : ErrEntry), ent ∈ failedEntries resp i n →
      ∀ x ∈ ent.errs, ∃ k, x ∈ (resp k).strings := by
  intro n
  induction n with
  | zero => intro i ent h; cases h
  | succ m ih =>
      intro i ent h x hx
      rw [failedEntries] at h
      rcases List.mem_append.mp h with h' | h'
      · cases hr : resp i with
        | gqlErrors errs =>
            rw [hr] at h'
            simp only [List.mem_cons, List.not_mem_nil, or_false] at h'
            subst h'
            exact ⟨i, by rw [hr]; exact hx⟩
        | thrown msg =>
            rw [hr] at h'
            simp only [List.mem_cons, List.not_mem_nil, or_false] at h'
            subst h'
            refine ⟨i, ?_⟩
            rw [hr]
            exact hx
        | parsed ue ids =>
            rw [hr] at h'
            dsimp only at h'
            by_cases hue : ue.length > 0
            · rw [if_pos hue] at h'
              simp only [List.mem_cons, List.not_mem_nil, or_false] at h'
              subst h'
              refine ⟨i, ?_⟩
              rw [hr, DelRes.strings]
              exact List.mem_append.mpr (Or.inl hx)
            · rw [if_neg hue] at h'
              cases h'
      · exact ih (i + 1) ent h' x hx

theorem uploadPipeline_strings_prov (orc : UploadOracle) (s : String) :
    s ∈ (uploadPipeline orc).1.strings → pipelineProvenance orc s := by
  intro hs
  unfold uploadPipeline at hs
  cases hst : orc.staged with
  | notJson =>
      rw [hst] at hs
      simp only [UploadResponse.strings] at hs
      simp at hs
      rcases hs with rfl | rfl <;> exact Or.inl (by decide)
  | gqlErrors errs =>
      rw [hst] at hs
      simp only [UploadResponse.strings] at hs
      simp at hs
      rcases hs with rfl | hmem
      · exact Or.inl (by decide)
      · exact Or.inr (Or.inl (Or.inl (by rw [hst]; exact hmem)))
  | userErrors errs =>
      rw [hst] at hs
      simp only [UploadResponse.strings] at hs
      simp at hs
      rcases hs with rfl | hmem
      · exact Or.inl (by decide)
      · exact Or.inr (Or.inl (Or.inl (by rw [hst]; exact hmem)))
  | networkError =>
      rw [hst] at hs
      simp only [UploadResponse.strings] at hs
      simp at hs
      rcases hs with rfl | rfl <;> exact Or.inl (by decide)
  | ok targets =>
      rw [hst] at hs
      cases targets with
      | nil =>
          simp only [UploadResponse.strings] at hs
          simp at hs
          rcases hs with rfl | rfl <;> exact Or.inl (by decide)
      | cons t ts =>
          dsimp only [List.head?_cons] at hs
          by_cases hu : t.url = ""
          · rw [if_pos hu] at hs
            simp only [UploadResponse.strings] at hs
            simp at hs
            rcases hs with rfl | rfl <;> exact Or.inl (by decide)
          · rw [if_neg hu] at hs
            cases hput : orc.put with
            | httpError st b =>
                rw [hput] at hs
                simp only [UploadResponse.strings] at hs
                simp at hs
                rcases hs with rfl | rfl
                · exact Or.inl (by decide)
                · exact Or.inr (Or.inl (Or.inr (Or.inl (by rw [hput]; exact List.mem_singleton.mpr rfl))))
            | networkError =>
                rw [hput] at hs
                simp only [UploadResponse.strings] at hs
                simp at hs
                rcases hs with rfl | rfl <;> exact Or.inl (by decide)
            | ok =>
                rw [hput] at hs
                cases hcf : orc.createFile with
                | notJson =>
                    rw [hcf] at hs
                    simp only [UploadResponse.strings] at hs
                    simp at hs
                    rcases hs with rfl | rfl <;> exact Or.inl (by decide)
                | networkError =>
                    rw [hcf] at hs
                    simp only [UploadResponse.strings] at hs
                    simp at hs
                    rcases hs with rfl | rfl <;> exact Or.inl (by decide)
                | gqlErrors errs =>
                    rw [hcf] at hs
                    simp only [UploadResponse.strings] at hs
                    simp at hs
                    rcases hs with rfl | hmem
                    · exact Or.inl (by decide)
                    · exact Or.inr (Or.inl (Or.inr (Or.inr (Or.inl (by rw [hcf]; exact hmem)))))
                | userErrors errs =>
                    rw [hcf] at hs
                    simp only [UploadResponse.strings] at hs
                    simp at hs
                    rcases hs with rfl | hmem
                    · exact Or.inl (by decide)
                    · exact Or.inr (Or.inl (Or.inr (Or.inr (Or.inl (by rw [hcf]; exact hmem)))))
                | ok files =>
                    rw [hcf] at hs
                    cases files with
                    | nil =>
                        simp only [UploadResponse.strings] at hs
                        simp at hs
                        rcases hs with rfl | rfl <;> exact Or.inl (by decide)
                    | cons f fs =>
                        dsimp only [List.head?_cons] at hs
                        have hcreateMem : ∀ x, x ∈ f.typename :: f.id ::
                            (f.status.toList ++ f.imageUrl.toList ++ f.url.toList ++ f.sources) →
                            x ∈ orc.createFile.strings := by
                          intro x hx
                          rw [hcf, CreateRes.strings]
                          exact List.mem_flatMap.mpr ⟨f, List.mem_cons_self _ _, hx⟩
                        by_cases h1 : f.typename = "GenericFile"
                        · rw [if_pos h1] at hs
                          by_cases h2 : jsTruthy f.url = true
                          · rw [if_pos h2] at hs
                            simp only [UploadResponse.strings] at hs
                            simp at hs
                            rcases hs with rfl | rfl | rfl
                            · exact Or.inl (by decide)
                            · refine Or.inr (Or.inl (Or.inr (Or.inr (Or.inl (hcreateMem _ ?_)))))
                              cases hfu : f.url with
                              | none => rw [hfu] at h2; simp [jsTruthy] at h2
                              | some v => simp
                            · exact Or.inr (Or.inl (Or.inr (Or.inr (Or.inl (hcreateMem _ (by simp))))))
                          · rw [if_neg h2] at hs
                            simp only [UploadResponse.strings] at hs
                            simp at hs
                            rcases hs with rfl | rfl <;> exact Or.inl (by decide)
                        · rw [if_neg h1] at hs
                          by_cases h2 : f.typename = "MediaImage"
                          · rw [if_pos h2] at hs
                            rcases hpo : pollForMediaReady orc.poll with ⟨outcome, polls⟩
                            rw [hpo] at hs
                            cases outcome with
                            | success u fid =>
                                obtain ⟨j, hju, hjf⟩ :=
                                  (pollAux_strings orc.poll 15 0).1 u fid polls hpo
                                dsimp only at hs
                                simp only [UploadResponse.strings] at hs
                                simp at hs
                                rcases hs with rfl | rfl | rfl
                                · exact Or.inl (by decide)
                                · exact Or.inr (Or.inl (Or.inr (Or.inr (Or.inr ⟨j, hju⟩))))
                                · exact Or.inr (Or.inl (Or.inr (Or.inr (Or.inr ⟨j, hjf⟩))))
                            | failure msg =>
                                have hmsg := (pollAux_strings orc.poll 15 0).2 msg polls hpo
                                dsimp only at hs
                                simp only [UploadResponse.strings] at hs
                                simp at hs
                                rcases hs with rfl | hmem | rfl | hstat
                                · exact Or.inl (by decide)
                                · rcases hmsg s hmem with hp | hn
                                  · exact Or.inl hp
                                  · exact Or.inr (Or.inr hn)
                                · exact Or.inr (Or.inl (Or.inr (Or.inr (Or.inl
                                    (hcreateMem _ (by simp))))))
                                · refine Or.inr (Or.inl (Or.inr (Or.inr (Or.inl (hcreateMem _ ?_)))))
                                  rw [hstat]
                                  simp
                          · rw [if_neg h2] at hs
                            rcases hfu : (if f.typename = "Video" && !f.sources.isEmpty then
                                f.sources.head?
                              else if f.typename = "Model3d" && !f.sources.isEmpty then
                                f.sources.head?
                              else none) with _ | u
                            · rw [hfu] at hs
                              simp only [UploadResponse.strings] at hs
                              simp at hs
                              rcases hs with rfl | rfl <;> exact Or.inl (by decide)
                            · rw [hfu] at hs
                              have hu_src : u ∈ f.sources := by
                                split at hfu
                                · exact List.mem_of_mem_head? hfu
                                · split at hfu
                                  · exact List.mem_of_mem_head? hfu
                                  · cases hfu
                              simp only [UploadResponse.strings] at hs
                              simp at hs
                              rcases hs with rfl | rfl | rfl
                              · exact Or.inl (by decide)
                              · exact Or.inr (Or.inl (Or.inr (Or.inr (Or.inl
                                  (hcreateMem _ (by simp [hu_src]))))))
                              · exact Or.inr (Or.inl (Or.inr (Or.inr (Or.inl
                                  (hcreateMem _ (by simp))))))

theorem removeCore_strings_prov (p : String) (pages : List PageRes)
    (delResp : Nat → DelRes) (s : String) :
    s ∈ (removeCore p pages delResp).1.strings →
      s ∈ removeLiteralPool ∨ s = p ∨ removeUpstream pages delResp s
      ∨ ∃ n : Nat, s = Nat.repr n := by
  intro hs
  unfold removeCore at hs
  split at hs
  · simp only [RemoveResponse.strings] at hs
    simp at hs
    repeat' rcases hs with hs | hs
    all_goals exact Or.inl (by decide)
  · rcases hfq : fetchAllFiles pages with ⟨fetched, nq⟩
    rw [hfq] at hs
    dsimp only at hs
    cases fetched with
    | error errs =>
        dsimp only at hs
        simp only [RemoveResponse.strings] at hs
        simp at hs
        rcases hs with rfl | hmem
        · exact Or.inl (by decide)
        · obtain ⟨pr, hpr, hall⟩ := fetchAllFiles_error_strings pages errs (by rw [hfq])
          exact Or.inr (Or.inr (Or.inl (Or.inl ⟨pr, hpr, hall s hmem⟩)))
    | ok allFiles =>
        dsimp only at hs
        have hok : (fetchAllFiles pages).1 = .ok allFiles := by rw [hfq]
        by_cases hz : (matchingFiles p allFiles).length = 0
        · rw [if_pos hz] at hs
          simp only [RemoveResponse.strings] at hs
          simp at hs
          repeat' rcases hs with hs | hs
          all_goals
            first
              | exact Or.inl (by decide)
              | exact Or.inr (Or.inl rfl)
        · rw [if_neg hz] at hs
          by_cases hgt : MAX_DELETE_PER_REQUEST < (matchingFiles p allFiles).length
          · rw [if_pos hgt] at hs
            simp only [RemoveResponse.strings] at hs
            simp at hs
            repeat' rcases hs with hs | hs
            all_goals
              first
                | exact Or.inl (by decide)
                | exact Or.inr (Or.inl rfl)
                | exact Or.inr (Or.inr (Or.inr ⟨_, rfl⟩))
          · rw [if_neg hgt, runDeleteBatches_eq delResp] at hs
            dsimp only at hs
            by_cases hfe : 0 < (failedEntries delResp 0
                (toBatches ((matchingFiles p allFiles).map (·.id))).length).length
            · rw [if_pos hfe] at hs
              simp only [RemoveResponse.strings] at hs
              simp at hs
              rcases hs with rfl | rfl | rfl | rfl | ⟨a, ha, hax⟩ | ⟨a, ha, hax⟩
              · exact Or.inl (by decide)
              · exact Or.inr (Or.inr (Or.inr ⟨_, rfl⟩))
              · exact Or.inl (by decide)
              · exact Or.inr (Or.inl rfl)
              · have hmem : a ∈ allFiles := List.mem_of_mem_filter ha
                obtain ⟨pr, hpr, hx⟩ := fetchAllFiles_ok_strings pages allFiles hok a hmem s
                  (by rcases hax with h | h
                      · exact Or.inl h
                      · simp [h])
                exact Or.inr (Or.inr (Or.inl (Or.inl ⟨pr, hpr, hx⟩)))
              · obtain ⟨k, hk⟩ := failedEntries_strings delResp _ 0 a ha s hax
                exact Or.inr (Or.inr (Or.inl (Or.inr ⟨k, hk⟩)))
            · rw [if_neg hfe] at hs
              simp only [RemoveResponse.strings] at hs
              simp at hs
              rcases hs with rfl | rfl | rfl | rfl | ⟨a, ha, hax⟩
              · exact Or.inl (by decide)
              · exact Or.inr (Or.inr (Or.inr ⟨_, rfl⟩))
              · exact Or.inl (by decide)
              · exact Or.inr (Or.inl rfl)
              · have hmem : a ∈ allFiles := List.mem_of_mem_filter ha
                obtain ⟨pr, hpr, hx⟩ := fetchAllFiles_ok_strings pages allFiles hok a hmem s
                  (by rcases hax with h | h
                      · exact Or.inl h
                      · simp [h])
                exact Or.inr (Or.inr (Or.inl (Or.inl ⟨pr, hpr, hx⟩)))

theorem digitChar_isDigit (m : Nat) (h : m < 10) : (Nat.digitChar m).isDigit = true := by
  interval_cases m <;> decide

theorem toDigitsCore_digits (fuel : Nat) :
    ∀ (n : Nat) (ds : List Char), (∀ c ∈ ds, c.isDigit = true) →
      ∀ c ∈ Nat.toDigitsCore 10 fuel n ds, c.isDigit = true := by
  induction fuel with
  | zero =>
      intro n ds hds c hc
      exact hds c hc
  | succ f ih =>
      intro n ds hds c hc
      unfold Nat.toDigitsCore at hc
      dsimp only at hc
      have hd : ∀ x ∈ Nat.digitChar (n % 10) :: ds, x.isDigit = true := by
        intro x hx
        rcases List.mem_cons.mp hx with rfl | hx
        · exact digitChar_isDigit _ (Nat.mod_lt _ (by decide))
        · exact hds x hx
      split at hc
      · exact hd c hc
      · exact ih _ _ hd c hc

theorem repr_isDigit (n : Nat) : ∀ c ∈ (Nat.repr n).toList, c.isDigit = true := by
  intro c hc
  have he : (Nat.repr n).toList = Nat.toDigitsCore 10 (n + 1) n [] := rfl
  rw [he] at hc
  exact toDigitsCore_digits (n + 1) n [] (by intro x hx; cases hx) c hc

theorem ne_repr_of_nondigit (c : String) (ch : Char) (hch : ch ∈ c.toList)
    (hnd : ch.isDigit = false) : ∀ n : Nat, c ≠ Nat.repr n := by
  intro n h
  subst h
  have hd := repr_isDigit n ch hch
  simp [hnd] at hd

theorem uploadHandler_strings_prov (env : UploadEnv) (body : UploadBody)
    (orc : UploadOracle) (s : String) :
    s ∈ (uploadHandler env body orc).1.strings → uploadProvenance body orc s := by
  intro hs
  unfold uploadHandler at hs
  split at hs
  · simp only [UploadResponse.strings] at hs
    simp at hs
    rcases hs with rfl | rfl <;> exact Or.inl (by decide)
  · cases hv : validateUpload body.filename body.image with
    | reject e =>
        rw [hv] at hs
        dsimp only at hs
        simp only [UploadResponse.strings] at hs
        simp at hs
        subst hs
        exact Or.inl (validateUpload_reject_lit _ _ _ hv)
    | accept ct b64 =>
        rw [hv] at hs
        dsimp only at hs
        rcases uploadPipeline_strings_prov orc s hs with h | h | h
        · exact Or.inl h
        · exact Or.inr (Or.inr (Or.inl h))
        · exact Or.inr (Or.inr (Or.inr h))

theorem removeHandler_strings_prov (env : RemoveEnv) (body : RemoveBody)
    (pages : List PageRes) (delResp : Nat → DelRes) (s : String) :
    s ∈ (removeHandler env body pages delResp).1.strings →
      removeProvenance body pages delResp s := by
  intro hs
  unfold removeHandler at hs
  split at hs
  · simp only [RemoveResponse.strings] at hs
    simp at hs
    rcases hs with rfl | rfl <;> exact Or.inl (by decide)
  · split at hs
    · simp only [RemoveResponse.strings] at hs
      simp at hs
      rcases hs with rfl | rfl <;> exact Or.inl (by decide)
    · split at hs
      · simp only [RemoveResponse.strings] at hs
        simp at hs
        rcases hs with rfl | rfl <;> exact Or.inl (by decide)
      · split at hs
        · simp only [RemoveResponse.strings] at hs
          simp at hs
          rcases hs with rfl | rfl <;> exact Or.inl (by decide)
        · split at hs
          · simp only [RemoveResponse.strings] at hs
            simp at hs
            rcases hs with rfl | rfl <;> exact Or.inl (by decide)
          · rename_i hq
            rcases removeCore_strings_prov (body.searchPattern.getD "") pages delResp s hs
              with h | h | h | h
            · exact Or.inl h
            · have hq' : jsTruthy body.searchPattern = true := by
                simpa using hq
              cases hsp : body.searchPattern with
              | none => rw [hsp] at hq'; simp [jsTruthy] at hq'
              | some p =>
                  rw [hsp] at h
                  refine Or.inr (Or.inl ?_)
                  simp [RemoveBody.strings, hsp, h]
            · exact Or.inr (Or.inr (Or.inl h))
            · exact Or.inr (Or.inr (Or.inr h))

/-- C8: no credential echo. Every string the upload handler serializes into
a response is a code literal, a string of the request body, a string of the
upstream responses, or a rendered decimal number; likewise for the remove
handler. Hence a configured credential (the admin API token or the admin
removal secret) never appears in a response body, provided its value does
not itself occur in the request or in upstream response data (nor,
coincidentally, equal one of the fixed public code literals, and it
contains at least one non-digit character so it cannot collide with a
rendered number). -/
theorem credentials_never_echoed
    (uenv : UploadEnv) (ubody : UploadBody) (orc : UploadOracle)
    (renv : RemoveEnv) (rbody : RemoveBody) (pages : List PageRes)
    (delResp : Nat → DelRes) (c : String) (ch : Char)
    (hch : ch ∈ c.toList) (hnd : ch.isDigit = false)
    (hlitU : c ∉ uploadLiteralPool) (hlitR : c ∉ removeLiteralPool)
    (hreqU : c ∉ ubody.strings) (hupU : ¬ uploadUpstream orc c)
    (hreqR : c ∉ rbody.strings) (hupR : ¬ removeUpstream pages delResp c) :
    c ∉ (uploadHandler uenv ubody orc).1.strings
    ∧ c ∉ (removeHandler renv rbody pages delResp).1.strings := by
  constructor
  · intro hmem
    rcases uploadHandler_strings_prov uenv ubody orc c hmem with h | h | h | ⟨n, hn⟩
    · exact hlitU h
    · exact hreqU h
    · exact hupU h
    · exact ne_repr_of_nondigit c ch hch hnd n hn
  · intro hmem
    rcases removeHandler_strings_prov renv rbody pages delResp c hmem with h | h | h | ⟨n, hn⟩
    · exact hlitR h
    · exact hreqR h
    · exact hupR h
    · exact ne_repr_of_nondigit c ch hch hnd n hn

theorem credentials_echo_witness :
    "hunter2!" ∉ (uploadHandler ⟨none, none⟩ ⟨none, none⟩
        ⟨.notJson, .ok, .notJson, fun _ => .notFound⟩).1.strings
    ∧ "hunter2!" ∉ (removeHandler ⟨none, none, none⟩ ⟨none, none⟩ []
        (fun _ => .parsed [] [])).1.strings :=
  credentials_never_echoed ⟨none, none⟩ ⟨none, none⟩
    ⟨.notJson, .ok, .notJson, fun _ => .notFound⟩
    ⟨none, none, none⟩ ⟨none, none⟩ [] (fun _ => .parsed [] []) "hunter2!" 'h'
    (by decide) (by decide) (by decide) (by decide)
    (by simp [UploadBody.strings])
    (by simp [uploadUpstream, StagedRes.strings, PutRes.strings, CreateRes.strings,
          PollRes.strings])
    (by simp [RemoveBody.strings])
    (by simp [removeUpstream, DelRes.strings])
